import Mathlib

/-!
Shallow embedding of `src/fastmq/asyncapi/models.py` (FastMQ's AsyncAPI
document model, a set of pydantic-v1 `BaseModel` classes) together with the
parse and serialize operations the specification describes.

Modelling conventions:
* Raw documents (decoded JSON/YAML) are the inductive `Json` type; numbers
  are embedded as `Int` (no claim depends on non-integral numerics).
* `parse` follows pydantic v1 semantics for the declared fields: fields are
  read by their external (aliased) name, unknown keys are ignored
  (default `Extra.ignore`), `Optional[X]` fields default to `None` and accept
  an explicit `null`, required fields error with path `[field]`, nested
  errors are prefixed with the field name, and errors of sibling fields are
  aggregated (applicative accumulation, as pydantic reports all field errors
  of a model).
* `serialize` is not part of `src/`; it is modelled from the spec
  (section 4.1): external key names for aliased fields, absent optional
  fields omitted entirely, enumeration fields emitted as their literal
  string value.
-/

namespace FastMQ

/-- A decoded JSON/YAML document: the raw input and output shape of the
document model.  Mappings are association lists (Python dicts preserve
insertion order and have unique keys). -/
inductive Json where
  | null : Json
  | bool : Bool → Json
  | num : Int → Json
  | str : String → Json
  | arr : List Json → Json
  | obj : List (String × Json) → Json
  deriving Repr

/-- Is this value Python `None` (decoded JSON `null`)? -/
def Json.isNull : Json → Bool
  | .null => true
  | _ => false

@[simp] theorem Json.isNull_null : Json.null.isNull = true := rfl
@[simp] theorem Json.isNull_bool (b : Bool) : (Json.bool b).isNull = false := rfl
@[simp] theorem Json.isNull_num (n : Int) : (Json.num n).isNull = false := rfl
@[simp] theorem Json.isNull_str (s : String) : (Json.str s).isNull = false := rfl
@[simp] theorem Json.isNull_arr (xs : List Json) : (Json.arr xs).isNull = false := rfl
@[simp] theorem Json.isNull_obj (fs : List (String × Json)) : (Json.obj fs).isNull = false := rfl

/-- A single validation error: the path of the offending field and a
reason, mirroring pydantic's `(loc, msg)` pairs. -/
structure FieldError where
  path : List String
  msg : String
  deriving Repr, DecidableEq

/-- Result of validating one model or field: either a value or the list of
all accumulated field errors. -/
abbrev Vres (α : Type) := Except (List FieldError) α

/-- Applicative combination of field results, accumulating errors from both
sides exactly as pydantic v1 collects every failing field of a model. -/
def vap : Vres (α → β) → Vres α → Vres β
  | .ok f, .ok a => .ok (f a)
  | .ok _, .error es => .error es
  | .error es, .ok _ => .error es
  | .error es, .error es' => .error (es ++ es')

@[simp] theorem vap_ok_ok (f : α → β) (a : α) : vap (.ok f) (.ok a) = .ok (f a) := rfl

@[simp] theorem vap_isOk (x : Vres (α → β)) (y : Vres α) :
    (vap x y).isOk = (x.isOk && y.isOk) := by
  cases x <;> cases y <;> rfl

/-- First-match lookup in a raw mapping (Python dict access by key). -/
def lookupJ : List (String × Json) → String → Option Json
  | [], _ => none
  | (k', j) :: rest, k => if k' = k then some j else lookupJ rest k

@[simp] theorem lookupJ_nil (k : String) : lookupJ [] k = none := rfl

theorem lookupJ_mem {l : List (String × Json)} {k : String} {j : Json}
    (h : lookupJ l k = some j) : (k, j) ∈ l := by
  induction l with
  | nil => simp [lookupJ] at h
  | cons hd tl ih =>
    unfold lookupJ at h
    split at h
    · rename_i heq
      cases h
      obtain ⟨k', j'⟩ := hd
      simp_all
    · exact List.mem_cons_of_mem _ (ih h)

/-- Prefix every error path with the name of the field in which it
occurred (pydantic's nested `loc`). -/
def errPrefix (k : String) (es : List FieldError) : List FieldError :=
  es.map fun e => ⟨k :: e.path, e.msg⟩

/-- Read an optional field: absent and explicit `null` both yield `none`
(pydantic `Optional[X] = None`); a present value runs the field validator,
its errors prefixed by the field name. -/
def optF (fs : List (String × Json)) (k : String) (p : Json → Vres α) : Vres (Option α) :=
  match lookupJ fs k with
  | none => .ok none
  | some j =>
    if j.isNull then .ok none
    else
      match p j with
      | .ok a => .ok (some a)
      | .error es => .error (errPrefix k es)

/-- Read a required field: absent yields pydantic's `field required` error. -/
def reqF (fs : List (String × Json)) (k : String) (p : Json → Vres α) : Vres α :=
  match lookupJ fs k with
  | none => .error [⟨[k], "field required"⟩]
  | some j =>
    match p j with
    | .ok a => .ok a
    | .error es => .error (errPrefix k es)

/-- Read an `Any`-typed field (pydantic keeps the decoded value untouched;
absence and explicit `null` are both Python `None`, embedded as `.null`). -/
def anyF (fs : List (String × Json)) (k : String) : Vres Json :=
  .ok ((lookupJ fs k).getD .null)

/-- Emit an optional field: absent optional fields are omitted entirely. -/
def optEmit (k : String) (f : α → Json) : Option α → List (String × Json)
  | none => []
  | some a => [(k, f a)]

/-- Emit a required field. -/
def reqEmit (k : String) (f : α → Json) (a : α) : List (String × Json) :=
  [(k, f a)]

/-- Emit an `Any`-typed field (a Python `None`, i.e. `.null`, is an absent
value and is omitted). -/
def anyEmit (k : String) (j : Json) : List (String × Json) :=
  if j.isNull then [] else [(k, j)]

/-! Scalar validators, following pydantic v1's lenient coercions for the
cases representable in this embedding. -/

/-- pydantic v1 `str` validator: strings pass through, numeric and boolean
values are coerced with Python `str()`. -/
def pStr : Json → Vres String
  | .str s => .ok s
  | .num n => .ok (toString n)
  | .bool b => .ok (if b then "True" else "False")
  | _ => .error [⟨[], "str type expected"⟩]

@[simp] theorem pStr_str (s : String) : pStr (.str s) = .ok s := rfl

/-- pydantic v1 `int`/`float` validator restricted to the integral numbers
of this embedding: numbers pass through, digit strings are coerced,
booleans coerce to 0/1. -/
def pInt : Json → Vres Int
  | .num n => .ok n
  | .str s =>
    match s.toInt? with
    | some n => .ok n
    | none => .error [⟨[], "value is not a valid integer"⟩]
  | .bool b => .ok (if b then 1 else 0)
  | _ => .error [⟨[], "value is not a valid integer"⟩]

@[simp] theorem pInt_num (n : Int) : pInt (.num n) = .ok n := rfl

/-- pydantic v1 `bool` validator: booleans, 0/1 numbers and the usual
truthy/falsy strings. -/
def pBool : Json → Vres Bool
  | .bool b => .ok b
  | .num 0 => .ok false
  | .num 1 => .ok true
  | .str s =>
    let t := s.toLower
    if t ∈ ["0", "off", "f", "false", "n", "no"] then .ok false
    else if t ∈ ["1", "on", "t", "true", "y", "yes"] then .ok true
    else .error [⟨[], "value could not be parsed to a boolean"⟩]
  | _ => .error [⟨[], "value could not be parsed to a boolean"⟩]

@[simp] theorem pBool_bool (b : Bool) : pBool (.bool b) = .ok b := by
  cases b <;> rfl

/-- Modelled from the library: pydantic's `AnyUrl` format check,
simplified to "non-empty lowercase scheme followed by `://` and a
non-empty remainder".  Only gates which strings count as URLs; no claim
depends on the exact URL grammar. -/
def isUrl (s : String) : Bool :=
  match s.splitOn "://" with
  | [scheme, rest] =>
    scheme ≠ "" && scheme.toList.all (fun c => c.isLower || c.isDigit || c ∈ ['+', '-', '.']) &&
      rest ≠ ""
  | _ => false

/-- pydantic `AnyUrl` field validator: string (after pydantic's str
coercion) that passes the URL format check. -/
def pUrl (j : Json) : Vres String :=
  match pStr j with
  | .ok s => if isUrl s then .ok s else .error [⟨[], "invalid or missing URL scheme"⟩]
  | .error es => .error es

theorem pUrl_str {s : String} (h : isUrl s = true) : pUrl (.str s) = .ok s := by
  simp [pUrl, h]

/-- Modelled from the library: the `email-validator` format check used by
pydantic's `EmailStr` when the library is installed, simplified to "one
`@` with non-empty sides".  Only gates which strings count as e-mail
addresses; no claim depends on the exact grammar. -/
def isEmail (s : String) : Bool :=
  match s.splitOn "@" with
  | [a, b] => a ≠ "" && b ≠ ""
  | _ => false

/-- `EmailStr` field validator in the environment where `email_validator`
is installed. -/
def pEmail (j : Json) : Vres String :=
  match pStr j with
  | .ok s => if isEmail s then .ok s else .error [⟨[], "value is not a valid email address"⟩]
  | .error es => .error es

theorem pEmail_str {s : String} (h : isEmail s = true) : pEmail (.str s) = .ok s := by
  simp [pEmail, h]

/-- `Any` field validator: the decoded value is kept untouched. -/
def pAny : Json → Vres Json := fun j => .ok j

@[simp] theorem pAny_eq (j : Json) : pAny j = .ok j := rfl

/-! Structural test bed: the `Contact` model. -/

/-- `class Contact(BaseModel)` — name, url, email, all optional. -/
structure Contact where
  name : Option String
  url : Option String
  email : Option String
  deriving Repr

def parseContact : Json → Vres Contact
  | .obj fs =>
    vap (vap (vap (.ok Contact.mk)
      (optF fs "name" pStr))
      (optF fs "url" pUrl))
      (optF fs "email" pEmail)
  | _ => .error [⟨[], "value is not a valid dict"⟩]

def contactFields (c : Contact) : List (String × Json) :=
  optEmit "name" Json.str c.name ++
    (optEmit "url" Json.str c.url ++
      optEmit "email" Json.str c.email)

/-- Modelled from the spec: serialization of a `Contact` (external names,
absent optional fields omitted). -/
def serializeContact (c : Contact) : Json := .obj (contactFields c)

def Contact.wf (c : Contact) : Bool :=
  c.url.all isUrl && c.email.all isEmail


/-! Generic lookup and field round-trip lemmas used to prove
`parse (serialize m) = ok m` structure by structure.  Serialized field
lists are right-associated concatenations of `optEmit`/`reqEmit`/`anyEmit`
segments, so each lemma comes in an "appended" and a "last segment"
form. -/

theorem optionAll_iff {o : Option α} {q : α → Bool} :
    o.all q = true ↔ ∀ a ∈ o, q a = true := by
  cases o <;> simp [Option.all]

theorem lookupJ_optEmit_ne {k' k : String} (h : k' ≠ k) (f : α → Json)
    (o : Option α) (rest : List (String × Json)) :
    lookupJ (optEmit k' f o ++ rest) k = lookupJ rest k := by
  cases o <;> simp [optEmit, lookupJ, h]

theorem lookupJ_optEmit_ne0 {k' k : String} (h : k' ≠ k) (f : α → Json)
    (o : Option α) :
    lookupJ (optEmit k' f o) k = none := by
  cases o <;> simp [optEmit, lookupJ, h]

theorem lookupJ_optEmit_self {k : String} {rest : List (String × Json)}
    (h : lookupJ rest k = none) (f : α → Json) (o : Option α) :
    lookupJ (optEmit k f o ++ rest) k = o.map f := by
  cases o <;> simp [optEmit, lookupJ, h]

theorem lookupJ_optEmit_self0 (k : String) (f : α → Json) (o : Option α) :
    lookupJ (optEmit k f o) k = o.map f := by
  cases o <;> simp [optEmit, lookupJ]

theorem lookupJ_reqEmit_ne {k' k : String} (h : k' ≠ k) (f : α → Json)
    (a : α) (rest : List (String × Json)) :
    lookupJ (reqEmit k' f a ++ rest) k = lookupJ rest k := by
  simp [reqEmit, lookupJ, h]

theorem lookupJ_reqEmit_ne0 {k' k : String} (h : k' ≠ k) (f : α → Json) (a : α) :
    lookupJ (reqEmit k' f a) k = none := by
  simp [reqEmit, lookupJ, h]

theorem lookupJ_reqEmit_self (k : String) (f : α → Json) (a : α)
    (rest : List (String × Json)) :
    lookupJ (reqEmit k f a ++ rest) k = some (f a) := by
  simp [reqEmit, lookupJ]

theorem lookupJ_reqEmit_self0 (k : String) (f : α → Json) (a : α) :
    lookupJ (reqEmit k f a) k = some (f a) := by
  simp [reqEmit, lookupJ]

theorem lookupJ_anyEmit_ne {k' k : String} (h : k' ≠ k) (j : Json)
    (rest : List (String × Json)) :
    lookupJ (anyEmit k' j ++ rest) k = lookupJ rest k := by
  unfold anyEmit
  split <;> simp [lookupJ, h]

theorem lookupJ_anyEmit_ne0 {k' k : String} (h : k' ≠ k) (j : Json) :
    lookupJ (anyEmit k' j) k = none := by
  unfold anyEmit
  split <;> simp [lookupJ, h]

theorem lookupJ_anyEmit_self {k : String} {rest : List (String × Json)}
    (h : lookupJ rest k = none) (j : Json) :
    lookupJ (anyEmit k j ++ rest) k = if j.isNull then none else some j := by
  unfold anyEmit
  split <;> simp_all [lookupJ]

theorem lookupJ_anyEmit_self0 (k : String) (j : Json) :
    lookupJ (anyEmit k j) k = if j.isNull then none else some j := by
  unfold anyEmit
  split <;> simp_all [lookupJ]

/-! Readers applied to a foreign head segment skip it. -/

theorem optF_skip_optEmit {k' k : String} (h : k' ≠ k) (f : α → Json)
    (o : Option α) (rest : List (String × Json)) (p : Json → Vres β) :
    optF (optEmit k' f o ++ rest) k p = optF rest k p := by
  unfold optF
  rw [lookupJ_optEmit_ne h]

theorem optF_skip_reqEmit {k' k : String} (h : k' ≠ k) (f : α → Json)
    (a : α) (rest : List (String × Json)) (p : Json → Vres β) :
    optF (reqEmit k' f a ++ rest) k p = optF rest k p := by
  unfold optF
  rw [lookupJ_reqEmit_ne h]

theorem optF_skip_anyEmit {k' k : String} (h : k' ≠ k) (j : Json)
    (rest : List (String × Json)) (p : Json → Vres β) :
    optF (anyEmit k' j ++ rest) k p = optF rest k p := by
  unfold optF
  rw [lookupJ_anyEmit_ne h]

theorem reqF_skip_optEmit {k' k : String} (h : k' ≠ k) (f : α → Json)
    (o : Option α) (rest : List (String × Json)) (p : Json → Vres β) :
    reqF (optEmit k' f o ++ rest) k p = reqF rest k p := by
  unfold reqF
  rw [lookupJ_optEmit_ne h]

theorem reqF_skip_reqEmit {k' k : String} (h : k' ≠ k) (f : α → Json)
    (a : α) (rest : List (String × Json)) (p : Json → Vres β) :
    reqF (reqEmit k' f a ++ rest) k p = reqF rest k p := by
  unfold reqF
  rw [lookupJ_reqEmit_ne h]

theorem reqF_skip_anyEmit {k' k : String} (h : k' ≠ k) (j : Json)
    (rest : List (String × Json)) (p : Json → Vres β) :
    reqF (anyEmit k' j ++ rest) k p = reqF rest k p := by
  unfold reqF
  rw [lookupJ_anyEmit_ne h]

theorem anyF_skip_optEmit {k' k : String} (h : k' ≠ k) (f : α → Json)
    (o : Option α) (rest : List (String × Json)) :
    anyF (optEmit k' f o ++ rest) k = anyF rest k := by
  unfold anyF
  rw [lookupJ_optEmit_ne h]

theorem anyF_skip_reqEmit {k' k : String} (h : k' ≠ k) (f : α → Json)
    (a : α) (rest : List (String × Json)) :
    anyF (reqEmit k' f a ++ rest) k = anyF rest k := by
  unfold anyF
  rw [lookupJ_reqEmit_ne h]

theorem anyF_skip_anyEmit {k' k : String} (h : k' ≠ k) (j : Json)
    (rest : List (String × Json)) :
    anyF (anyEmit k' j ++ rest) k = anyF rest k := by
  unfold anyF
  rw [lookupJ_anyEmit_ne h]

/-! Readers applied to their own emitted segment recover the value. -/

theorem optF_roundtrip {k : String} {rest : List (String × Json)}
    (hrest : lookupJ rest k = none) {f : α → Json} {o : Option α}
    {p : Json → Vres α}
    (hnull : ∀ a ∈ o, (f a).isNull = false)
    (hp : ∀ a ∈ o, p (f a) = .ok a) :
    optF (optEmit k f o ++ rest) k p = .ok o := by
  cases o with
  | none => simp [optF, lookupJ_optEmit_self hrest]
  | some a =>
    simp [optF, lookupJ_optEmit_self hrest, hnull a (by simp), hp a (by simp)]

theorem optF_roundtrip0 {k : String} {f : α → Json} {o : Option α}
    {p : Json → Vres α}
    (hnull : ∀ a ∈ o, (f a).isNull = false)
    (hp : ∀ a ∈ o, p (f a) = .ok a) :
    optF (optEmit k f o) k p = .ok o := by
  cases o with
  | none => simp [optF, lookupJ_optEmit_self0]
  | some a =>
    simp [optF, lookupJ_optEmit_self0, hnull a (by simp), hp a (by simp)]

theorem reqF_roundtrip {k : String} {f : α → Json} {a : α}
    (rest : List (String × Json)) {p : Json → Vres α}
    (hp : p (f a) = .ok a) :
    reqF (reqEmit k f a ++ rest) k p = .ok a := by
  simp [reqF, lookupJ_reqEmit_self, hp]

theorem reqF_roundtrip0 {k : String} {f : α → Json} {a : α}
    {p : Json → Vres α} (hp : p (f a) = .ok a) :
    reqF (reqEmit k f a) k p = .ok a := by
  simp [reqF, lookupJ_reqEmit_self0, hp]

theorem anyF_roundtrip {k : String} {rest : List (String × Json)}
    (hrest : lookupJ rest k = none) (j : Json) :
    anyF (anyEmit k j ++ rest) k = .ok j := by
  unfold anyF
  rw [lookupJ_anyEmit_self hrest]
  cases j <;> simp

theorem anyF_roundtrip0 (k : String) (j : Json) :
    anyF (anyEmit k j) k = .ok j := by
  unfold anyF
  rw [lookupJ_anyEmit_self0]
  cases j <;> simp

theorem parse_serialize_contact {c : Contact} (h : c.wf = true) :
    parseContact (serializeContact c) = .ok c := by
  obtain ⟨name, url, email⟩ := c
  simp only [Contact.wf, Bool.and_eq_true, optionAll_iff] at h
  obtain ⟨hu, he⟩ := h
  have h1 : optF (optEmit "url" Json.str url ++ optEmit "email" Json.str email) "url" pUrl
      = .ok url :=
    optF_roundtrip (by simp [lookupJ_optEmit_ne0]) (by simp)
      (fun a ha => pUrl_str (hu a ha))
  have h2 : optF (optEmit "email" Json.str email) "email" pEmail = .ok email :=
    optF_roundtrip0 (by simp) (fun a ha => pEmail_str (he a ha))
  simp [parseContact, serializeContact, contactFields, optF_skip_optEmit,
    optF_roundtrip, optF_roundtrip0, lookupJ_optEmit_ne, lookupJ_optEmit_ne0,
    h1, h2]

/-! Containers: lists and string-keyed mappings of validated values, and
unions tried left to right (pydantic v1 `Union` semantics). -/

/-- Validate every element of a raw list, error paths prefixed with the
element index, errors of all elements aggregated. -/
def travList (p : Json → Vres α) : List Json → Nat → Vres (List α)
  | [], _ => .ok []
  | x :: rest, i =>
    vap
      (vap (.ok List.cons)
        (match p x with
        | .ok a => .ok a
        | .error es => .error (errPrefix (toString i) es)))
      (travList p rest (i + 1))

/-- pydantic `List[X]` validator. -/
def pListWith (p : Json → Vres α) : Json → Vres (List α)
  | .arr xs => travList p xs 0
  | _ => .error [⟨[], "value is not a valid list"⟩]

def listEmit (f : α → Json) (xs : List α) : Json := .arr (xs.map f)

theorem travList_roundtrip {p : Json → Vres α} {f : α → Json} (xs : List α)
    (i : Nat) (hp : ∀ x ∈ xs, p (f x) = .ok x) :
    travList p (xs.map f) i = .ok xs := by
  induction xs generalizing i with
  | nil => rfl
  | cons hd tl ih =>
    simp only [List.map_cons, travList, hp hd (by simp)]
    rw [ih (i + 1) (fun x hx => hp x (by simp [hx]))]
    rfl

theorem pListWith_roundtrip {p : Json → Vres α} {f : α → Json} {xs : List α}
    (hp : ∀ x ∈ xs, p (f x) = .ok x) :
    pListWith p (listEmit f xs) = .ok xs := by
  simp only [listEmit, pListWith]
  exact travList_roundtrip xs 0 hp

/-- Validate every value of a raw mapping, error paths prefixed with the
key, errors of all entries aggregated. -/
def travDict (p : Json → Vres α) : List (String × Json) → Vres (List (String × α))
  | [] => .ok []
  | (k, v) :: rest =>
    vap
      (vap (.ok List.cons)
        (match p v with
        | .ok a => .ok (k, a)
        | .error es => .error (errPrefix k es)))
      (travDict p rest)

/-- pydantic `Dict[str, X]` validator; entries keep insertion order. -/
def pDictWith (p : Json → Vres α) : Json → Vres (List (String × α))
  | .obj fs => travDict p fs
  | _ => .error [⟨[], "value is not a valid dict"⟩]

def dictEmit (f : α → Json) (entries : List (String × α)) : Json :=
  .obj (entries.map fun e => (e.1, f e.2))

theorem travDict_roundtrip {p : Json → Vres α} {f : α → Json}
    (entries : List (String × α))
    (hp : ∀ e ∈ entries, p (f e.2) = .ok e.2) :
    travDict p (entries.map fun e => (e.1, f e.2)) = .ok entries := by
  induction entries with
  | nil => rfl
  | cons hd tl ih =>
    obtain ⟨k, a⟩ := hd
    simp only [List.map_cons, travDict, hp (k, a) (by simp)]
    rw [ih (fun e he => hp e (by simp [he]))]
    rfl

theorem pDictWith_roundtrip {p : Json → Vres α} {f : α → Json}
    {entries : List (String × α)}
    (hp : ∀ e ∈ entries, p (f e.2) = .ok e.2) :
    pDictWith p (dictEmit f entries) = .ok entries := by
  simp only [dictEmit, pDictWith]
  exact travDict_roundtrip entries hp

/-- pydantic v1 `Union[A, B]` validator: try the alternatives in
declaration order; if both fail, report the errors of both. -/
def pUnion (p1 : Json → Vres α) (p2 : Json → Vres β) (j : Json) : Vres (α ⊕ β) :=
  match p1 j with
  | .ok a => .ok (.inl a)
  | .error es1 =>
    match p2 j with
    | .ok b => .ok (.inr b)
    | .error es2 => .error (es1 ++ es2)

theorem pUnion_inl {p1 : Json → Vres α} {p2 : Json → Vres β} {j : Json}
    {a : α} (h : p1 j = .ok a) : pUnion p1 p2 j = .ok (.inl a) := by
  simp [pUnion, h]

theorem pUnion_inr {p1 : Json → Vres α} {p2 : Json → Vres β} {j : Json}
    {es : List FieldError} {b : β} (h1 : p1 j = .error es)
    (h2 : p2 j = .ok b) : pUnion p1 p2 j = .ok (.inr b) := by
  simp [pUnion, h1, h2]

/-! The remaining models of `models.py`, in source order. -/

/-- `class ExternalDocumentation(BaseModel)` — optional description,
required `AnyUrl`. -/
structure ExternalDocumentation where
  description : Option String
  url : String
  deriving Repr

def parseExternalDocumentation : Json → Vres ExternalDocumentation
  | .obj fs =>
    vap (vap (.ok ExternalDocumentation.mk)
      (optF fs "description" pStr))
      (reqF fs "url" pUrl)
  | _ => .error [⟨[], "value is not a valid dict"⟩]

def externalDocumentationFields (d : ExternalDocumentation) : List (String × Json) :=
  optEmit "description" Json.str d.description ++
    reqEmit "url" Json.str d.url

/-- Modelled from the spec: serialization of an `ExternalDocumentation`. -/
def serializeExternalDocumentation (d : ExternalDocumentation) : Json :=
  .obj (externalDocumentationFields d)

def ExternalDocumentation.wf (d : ExternalDocumentation) : Bool := isUrl d.url

theorem parse_serialize_externalDocumentation {d : ExternalDocumentation}
    (h : d.wf = true) :
    parseExternalDocumentation (serializeExternalDocumentation d) = .ok d := by
  obtain ⟨description, url⟩ := d
  simp only [ExternalDocumentation.wf] at h
  have h1 : reqF (reqEmit "url" Json.str url) "url" pUrl = .ok url :=
    reqF_roundtrip0 (pUrl_str h)
  simp [parseExternalDocumentation, serializeExternalDocumentation,
    externalDocumentationFields, optF_roundtrip, lookupJ_reqEmit_ne0,
    reqF_skip_optEmit, h1]

/-- `class License(BaseModel)` — required name, optional `AnyUrl`. -/
structure License where
  name : String
  url : Option String
  deriving Repr

def parseLicense : Json → Vres License
  | .obj fs =>
    vap (vap (.ok License.mk)
      (reqF fs "name" pStr))
      (optF fs "url" pUrl)
  | _ => .error [⟨[], "value is not a valid dict"⟩]

def licenseFields (l : License) : List (String × Json) :=
  reqEmit "name" Json.str l.name ++
    optEmit "url" Json.str l.url

/-- Modelled from the spec: serialization of a `License`. -/
def serializeLicense (l : License) : Json := .obj (licenseFields l)

def License.wf (l : License) : Bool := l.url.all isUrl

theorem parse_serialize_license {l : License} (h : l.wf = true) :
    parseLicense (serializeLicense l) = .ok l := by
  obtain ⟨name, url⟩ := l
  simp only [License.wf, optionAll_iff] at h
  have h1 : optF (optEmit "url" Json.str url) "url" pUrl = .ok url :=
    optF_roundtrip0 (by simp) (fun a ha => pUrl_str (h a ha))
  simp [parseLicense, serializeLicense, licenseFields, reqF_roundtrip,
    optF_skip_reqEmit, h1]

/-- `class Info(BaseModel)` — title and version required. -/
structure Info where
  title : String
  description : Option String
  termsOfService : Option String
  contact : Option Contact
  license : Option License
  version : String
  deriving Repr

def parseInfo : Json → Vres Info
  | .obj fs =>
    vap (vap (vap (vap (vap (vap (.ok Info.mk)
      (reqF fs "title" pStr))
      (optF fs "description" pStr))
      (optF fs "termsOfService" pStr))
      (optF fs "contact" parseContact))
      (optF fs "license" parseLicense))
      (reqF fs "version" pStr)
  | _ => .error [⟨[], "value is not a valid dict"⟩]

def infoFields (i : Info) : List (String × Json) :=
  reqEmit "title" Json.str i.title ++
    (optEmit "description" Json.str i.description ++
      (optEmit "termsOfService" Json.str i.termsOfService ++
        (optEmit "contact" serializeContact i.contact ++
          (optEmit "license" serializeLicense i.license ++
            reqEmit "version" Json.str i.version))))

/-- Modelled from the spec: serialization of an `Info`. -/
def serializeInfo (i : Info) : Json := .obj (infoFields i)

def Info.wf (i : Info) : Bool :=
  i.contact.all Contact.wf && i.license.all License.wf

theorem parse_serialize_info {i : Info} (h : i.wf = true) :
    parseInfo (serializeInfo i) = .ok i := by
  obtain ⟨title, description, termsOfService, contact, license, version⟩ := i
  simp only [Info.wf, Bool.and_eq_true, optionAll_iff] at h
  obtain ⟨hc, hl⟩ := h
  have h1 : optF
      (optEmit "contact" serializeContact contact ++
        (optEmit "license" serializeLicense license ++
          reqEmit "version" Json.str version)) "contact" parseContact
      = .ok contact :=
    optF_roundtrip
      (by simp [lookupJ_optEmit_ne, lookupJ_reqEmit_ne0])
      (by intro a _; simp [serializeContact])
      (fun a ha => parse_serialize_contact (hc a ha))
  have h2 : optF
      (optEmit "license" serializeLicense license ++
        reqEmit "version" Json.str version) "license" parseLicense
      = .ok license :=
    optF_roundtrip
      (by simp [lookupJ_reqEmit_ne0])
      (by intro a _; simp [serializeLicense])
      (fun a ha => parse_serialize_license (hl a ha))
  simp [parseInfo, serializeInfo, infoFields, reqF_roundtrip, reqF_roundtrip0,
    optF_roundtrip, optF_skip_reqEmit, optF_skip_optEmit, reqF_skip_optEmit,
    reqF_skip_reqEmit, lookupJ_optEmit_ne, lookupJ_reqEmit_ne0,
    lookupJ_optEmit_ne0, h1, h2]

/-- pydantic bare `dict` value (protocol bindings): any raw mapping. -/
def pObj : Json → Vres (List (String × Json))
  | .obj fs => .ok fs
  | _ => .error [⟨[], "value is not a valid dict"⟩]

@[simp] theorem pObj_obj (fs : List (String × Json)) : pObj (.obj fs) = .ok fs := rfl

/-- `class ServerVariable(BaseModel)` — default required. -/
structure ServerVariable where
  enum : Option (List String)
  default : String
  description : Option String
  deriving Repr

def parseServerVariable : Json → Vres ServerVariable
  | .obj fs =>
    vap (vap (vap (.ok ServerVariable.mk)
      (optF fs "enum" (pListWith pStr)))
      (reqF fs "default" pStr))
      (optF fs "description" pStr)
  | _ => .error [⟨[], "value is not a valid dict"⟩]

def serverVariableFields (sv : ServerVariable) : List (String × Json) :=
  optEmit "enum" (listEmit Json.str) sv.enum ++
    (reqEmit "default" Json.str sv.default ++
      optEmit "description" Json.str sv.description)

/-- Modelled from the spec: serialization of a `ServerVariable`. -/
def serializeServerVariable (sv : ServerVariable) : Json :=
  .obj (serverVariableFields sv)

theorem parse_serialize_serverVariable (sv : ServerVariable) :
    parseServerVariable (serializeServerVariable sv) = .ok sv := by
  obtain ⟨enum, dflt, description⟩ := sv
  have h1 : optF
      (optEmit "enum" (listEmit Json.str) enum ++
        (reqEmit "default" Json.str dflt ++
          optEmit "description" Json.str description)) "enum"
      (pListWith pStr) = .ok enum :=
    optF_roundtrip
      (by simp [lookupJ_reqEmit_ne, lookupJ_optEmit_ne0])
      (by intro a _; simp [listEmit])
      (fun l _ => pListWith_roundtrip (fun x _ => pStr_str x))
  simp [parseServerVariable, serializeServerVariable, serverVariableFields,
    reqF_roundtrip, reqF_skip_optEmit, optF_skip_optEmit, optF_skip_reqEmit,
    optF_roundtrip0, h1]

/-- `class ServerProtocol(Enum)` — the closed transport-protocol
enumeration. -/
inductive ServerProtocol where
  | amqp
  | amqps
  | http
  | https
  | jms
  | kafka
  | kafka_secure
  | mqtt
  | secure_mqtt
  | stomp
  | stomps
  | ws
  | wss
  deriving Repr, DecidableEq

/-- The literal string value of each enumeration member. -/
def ServerProtocol.value : ServerProtocol → String
  | .amqp => "amqp"
  | .amqps => "amqps"
  | .http => "http"
  | .https => "https"
  | .jms => "jms"
  | .kafka => "kafka"
  | .kafka_secure => "kafka-secure"
  | .mqtt => "mqtt"
  | .secure_mqtt => "secure-mqtt"
  | .stomp => "stomp"
  | .stomps => "stomps"
  | .ws => "ws"
  | .wss => "wss"

/-- Value-to-member table of the enumeration, in declaration order. -/
def protocolTable : List (String × ServerProtocol) :=
  [("amqp", .amqp), ("amqps", .amqps), ("http", .http), ("https", .https),
   ("jms", .jms), ("kafka", .kafka), ("kafka-secure", .kafka_secure),
   ("mqtt", .mqtt), ("secure-mqtt", .secure_mqtt), ("stomp", .stomp),
   ("stomps", .stomps), ("ws", .ws), ("wss", .wss)]

def protocolOfString (s : String) : Option ServerProtocol :=
  (protocolTable.find? (fun e => e.1 == s)).map Prod.snd

/-- Enum field validator: the raw value must be the literal string value of
one of the members. -/
def pProtocol : Json → Vres ServerProtocol
  | .str s =>
    match protocolOfString s with
    | some v => .ok v
    | none => .error [⟨[], "value is not a valid enumeration member"⟩]
  | _ => .error [⟨[], "value is not a valid enumeration member"⟩]

theorem pProtocol_value (v : ServerProtocol) : pProtocol (.str v.value) = .ok v := by
  cases v <;> rfl

/-- Any string accepted by the enum validator is one of the table's literal
values. -/
theorem protocolOfString_mem {s : String} {v : ServerProtocol}
    (h : protocolOfString s = some v) : s ∈ protocolTable.map Prod.fst := by
  unfold protocolOfString at h
  cases hf : protocolTable.find? (fun e => e.1 == s) with
  | none => rw [hf] at h; cases h
  | some e =>
    have hm : e ∈ protocolTable := List.mem_of_find?_eq_some hf
    have hp := List.find?_some hf
    have : e.1 = s := by simpa using hp
    subst this
    exact List.mem_map_of_mem Prod.fst hm

/-- `class Server(BaseModel)` — url, protocol, protocolVersion required.
The source type of `url` is `Union[AnyUrl, str]`: the fallback `str`
alternative accepts every string, so the field validator is the plain
string validator. -/
structure Server where
  url : String
  description : Option String
  «variables» : Option (List (String × ServerVariable))
  protocol : ServerProtocol
  protocolVersion : String
  security : Option (List (String × List String))
  bindings : Option (List (String × List (String × Json)))
  deriving Repr

def parseServer : Json → Vres Server
  | .obj fs =>
    vap (vap (vap (vap (vap (vap (vap (.ok Server.mk)
      (reqF fs "url" pStr))
      (optF fs "description" pStr))
      (optF fs "variables" (pDictWith parseServerVariable)))
      (reqF fs "protocol" pProtocol))
      (reqF fs "protocolVersion" pStr))
      (optF fs "security" (pDictWith (pListWith pStr))))
      (optF fs "bindings" (pDictWith pObj))
  | _ => .error [⟨[], "value is not a valid dict"⟩]

def serverFields (s : Server) : List (String × Json) :=
  reqEmit "url" Json.str s.url ++
    (optEmit "description" Json.str s.description ++
      (optEmit "variables" (dictEmit serializeServerVariable) s.«variables» ++
        (reqEmit "protocol" (fun v => Json.str v.value) s.protocol ++
          (reqEmit "protocolVersion" Json.str s.protocolVersion ++
            (optEmit "security" (dictEmit (listEmit Json.str)) s.security ++
              optEmit "bindings" (dictEmit Json.obj) s.bindings)))))

/-- Modelled from the spec: serialization of a `Server`; the enumeration
field is emitted as its literal string value. -/
def serializeServer (s : Server) : Json := .obj (serverFields s)

theorem parse_serialize_server (s : Server) :
    parseServer (serializeServer s) = .ok s := by
  obtain ⟨url, description, vars, protocol, protocolVersion, security, bindings⟩ := s
  have h1 : optF
      (optEmit "variables" (dictEmit serializeServerVariable) vars ++
        (reqEmit "protocol" (fun v => Json.str v.value) protocol ++
          (reqEmit "protocolVersion" Json.str protocolVersion ++
            (optEmit "security" (dictEmit (listEmit Json.str)) security ++
              optEmit "bindings" (dictEmit Json.obj) bindings)))) "variables"
      (pDictWith parseServerVariable) = .ok vars :=
    optF_roundtrip
      (by simp [lookupJ_reqEmit_ne, lookupJ_optEmit_ne, lookupJ_optEmit_ne0])
      (by intro a _; simp [dictEmit])
      (fun d _ => pDictWith_roundtrip (fun e _ => parse_serialize_serverVariable e.2))
  have h2 : optF
      (optEmit "security" (dictEmit (listEmit Json.str)) security ++
        optEmit "bindings" (dictEmit Json.obj) bindings) "security"
      (pDictWith (pListWith pStr)) = .ok security :=
    optF_roundtrip
      (by simp [lookupJ_optEmit_ne0])
      (by intro a _; simp [dictEmit])
      (fun d _ => pDictWith_roundtrip
        (fun e _ => pListWith_roundtrip (fun x _ => pStr_str x)))
  have h3 : optF (optEmit "bindings" (dictEmit Json.obj) bindings) "bindings"
      (pDictWith pObj) = .ok bindings :=
    optF_roundtrip0
      (by intro a _; simp [dictEmit])
      (fun d _ => pDictWith_roundtrip (fun e _ => pObj_obj e.2))
  simp [parseServer, serializeServer, serverFields,
    optF_roundtrip, optF_roundtrip0, reqF_roundtrip, reqF_roundtrip0,
    optF_skip_optEmit, optF_skip_reqEmit, reqF_skip_optEmit, reqF_skip_reqEmit,
    lookupJ_optEmit_ne, lookupJ_optEmit_ne0, lookupJ_reqEmit_ne,
    lookupJ_reqEmit_ne0, pProtocol_value, h1, h2, h3]

/-- `class Reference(BaseModel)` — the `ref` field is read from and written
to the external key `"$ref"` (pydantic `Field(..., alias="$ref")`). -/
structure Reference where
  ref : String
  deriving Repr, DecidableEq

def parseReference : Json → Vres Reference
  | .obj fs => vap (.ok Reference.mk) (reqF fs "$ref" pStr)
  | _ => .error [⟨[], "value is not a valid dict"⟩]

def referenceFields (r : Reference) : List (String × Json) :=
  reqEmit "$ref" Json.str r.ref

/-- Modelled from the spec: serialization of a `Reference` re-emits the
external aliased key `"$ref"`. -/
def serializeReference (r : Reference) : Json := .obj (referenceFields r)

theorem parse_serialize_reference (r : Reference) :
    parseReference (serializeReference r) = .ok r := by
  obtain ⟨ref⟩ := r
  simp [parseReference, serializeReference, referenceFields, reqF_roundtrip0]

/-- `class Discriminator(BaseModel)` — propertyName required. -/
structure Discriminator where
  propertyName : String
  mapping : Option (List (String × String))
  deriving Repr

def parseDiscriminator : Json → Vres Discriminator
  | .obj fs =>
    vap (vap (.ok Discriminator.mk)
      (reqF fs "propertyName" pStr))
      (optF fs "mapping" (pDictWith pStr))
  | _ => .error [⟨[], "value is not a valid dict"⟩]

def discriminatorFields (d : Discriminator) : List (String × Json) :=
  reqEmit "propertyName" Json.str d.propertyName ++
    optEmit "mapping" (dictEmit Json.str) d.mapping

/-- Modelled from the spec: serialization of a `Discriminator`. -/
def serializeDiscriminator (d : Discriminator) : Json :=
  .obj (discriminatorFields d)

theorem parse_serialize_discriminator (d : Discriminator) :
    parseDiscriminator (serializeDiscriminator d) = .ok d := by
  obtain ⟨propertyName, mapping⟩ := d
  have h1 : optF (optEmit "mapping" (dictEmit Json.str) mapping) "mapping"
      (pDictWith pStr) = .ok mapping :=
    optF_roundtrip0
      (by intro a _; simp [dictEmit])
      (fun d _ => pDictWith_roundtrip (fun e _ => pStr_str e.2))
  simp [parseDiscriminator, serializeDiscriminator, discriminatorFields,
    reqF_roundtrip, optF_skip_reqEmit, h1]

/-! Helpers for `Any`-valued containers and for the unions appearing in
the models. -/

theorem travList_pAny (xs : List Json) (i : Nat) : travList pAny xs i = .ok xs := by
  induction xs generalizing i with
  | nil => rfl
  | cons hd tl ih => simp [travList, ih (i + 1)]

@[simp] theorem pListAny (xs : List Json) : pListWith pAny (.arr xs) = .ok xs := by
  simp [pListWith, travList_pAny]

theorem travDict_pAny (fs : List (String × Json)) : travDict pAny fs = .ok fs := by
  induction fs with
  | nil => rfl
  | cons hd tl ih =>
    obtain ⟨k, v⟩ := hd
    simp [travDict, ih]

@[simp] theorem pDictAny (fs : List (String × Json)) : pDictWith pAny (.obj fs) = .ok fs := by
  simp [pDictWith, travDict_pAny]

/-- `Union[Dict[str, Any], bool]` validator (the `additionalProperties`
field). -/
def pAddProps : Json → Vres ((List (String × Json)) ⊕ Bool) :=
  pUnion (pDictWith pAny) pBool

def emitAddProps : (List (String × Json)) ⊕ Bool → Json
  | .inl fs => .obj fs
  | .inr b => .bool b

@[simp] theorem emitAddProps_isNull (v : (List (String × Json)) ⊕ Bool) :
    (emitAddProps v).isNull = false := by
  cases v <;> rfl

@[simp] theorem pAddProps_roundtrip (v : (List (String × Json)) ⊕ Bool) :
    pAddProps (emitAddProps v) = .ok v := by
  cases v with
  | inl fs => exact pUnion_inl (by simp [emitAddProps])
  | inr b => exact pUnion_inr rfl (pBool_bool b)

/-- Well-formedness of a union value whose right alternative is shadowed
at re-parse time by the left alternative (the left validator accepts every
serialized right value). -/
def sumWfL (wfa : α → Bool) : α ⊕ β → Bool
  | .inl a => wfa a
  | .inr _ => false

@[simp] theorem listEmit_isNull (f : α → Json) (xs : List α) :
    (listEmit f xs).isNull = false := rfl

@[simp] theorem dictEmit_isNull (f : α → Json) (es : List (String × α)) :
    (dictEmit f es).isNull = false := rfl

@[simp] theorem serializeContact_isNull (c : Contact) :
    (serializeContact c).isNull = false := rfl

@[simp] theorem serializeExternalDocumentation_isNull (d : ExternalDocumentation) :
    (serializeExternalDocumentation d).isNull = false := rfl

@[simp] theorem serializeLicense_isNull (l : License) :
    (serializeLicense l).isNull = false := rfl

@[simp] theorem serializeInfo_isNull (i : Info) :
    (serializeInfo i).isNull = false := rfl

@[simp] theorem serializeServerVariable_isNull (sv : ServerVariable) :
    (serializeServerVariable sv).isNull = false := rfl

@[simp] theorem serializeServer_isNull (s : Server) :
    (serializeServer s).isNull = false := rfl

@[simp] theorem serializeReference_isNull (r : Reference) :
    (serializeReference r).isNull = false := rfl

@[simp] theorem serializeDiscriminator_isNull (d : Discriminator) :
    (serializeDiscriminator d).isNull = false := rfl

/-- `class SchemaBase(BaseModel)` — the flat JSON-Schema field set; the recursive fields (`allOf`, `oneOf`, `anyOf`, `not`, `items`, `properties`) are typed `Any` and keep the raw decoded value.  The source annotates the six numeric bound fields with `Field(None, gte=0)`: `gte` is not a keyword pydantic v1 recognizes (the constraint keyword is `ge`), so the bound is stored as schema metadata and never enforced; the validators here faithfully accept any integer. -/
structure SchemaBase where
  ref : Option String
  title : Option String
  multipleOf : Option Int
  maximum : Option Int
  exclusiveMaximum : Option Int
  minimum : Option Int
  exclusiveMinimum : Option Int
  maxLength : Option Int
  minLength : Option Int
  pattern : Option String
  maxItems : Option Int
  minItems : Option Int
  uniqueItems : Option Bool
  maxProperties : Option Int
  minProperties : Option Int
  required : Option (List String)
  enum : Option (List Json)
  type : Option String
  allOf : Option (List Json)
  oneOf : Option (List Json)
  anyOf : Option (List Json)
  not_ : Json
  items : Json
  properties : Option (List (String × Json))
  additionalProperties : Option ((List (String × Json)) ⊕ Bool)
  description : Option String
  format : Option String
  default : Json
  nullable : Option Bool
  discriminator : Option Discriminator
  readOnly : Option Bool
  writeOnly : Option Bool
  externalDocs : Option ExternalDocumentation
  «example» : Json
  deprecated : Option Bool
  deriving Repr

def parseSchemaBase : Json → Vres SchemaBase
  | .obj fs =>
    (vap (vap (vap (vap (vap (vap (vap (vap (vap (vap (vap (vap (vap (vap (vap (vap (vap (vap (vap (vap (vap (vap (vap (vap (vap (vap (vap (vap (vap (vap (vap (vap (vap (vap (vap (.ok SchemaBase.mk)
      (optF fs "$ref" pStr))
      (optF fs "title" pStr))
      (optF fs "multipleOf" pInt))
      (optF fs "maximum" pInt))
      (optF fs "exclusiveMaximum" pInt))
      (optF fs "minimum" pInt))
      (optF fs "exclusiveMinimum" pInt))
      (optF fs "maxLength" pInt))
      (optF fs "minLength" pInt))
      (optF fs "pattern" pStr))
      (optF fs "maxItems" pInt))
      (optF fs "minItems" pInt))
      (optF fs "uniqueItems" pBool))
      (optF fs "maxProperties" pInt))
      (optF fs "minProperties" pInt))
      (optF fs "required" (pListWith pStr)))
      (optF fs "enum" (pListWith pAny)))
      (optF fs "type" pStr))
      (optF fs "allOf" (pListWith pAny)))
      (optF fs "oneOf" (pListWith pAny)))
      (optF fs "anyOf" (pListWith pAny)))
      (anyF fs "not"))
      (anyF fs "items"))
      (optF fs "properties" (pDictWith pAny)))
      (optF fs "additionalProperties" pAddProps))
      (optF fs "description" pStr))
      (optF fs "format" pStr))
      (anyF fs "default"))
      (optF fs "nullable" pBool))
      (optF fs "discriminator" parseDiscriminator))
      (optF fs "readOnly" pBool))
      (optF fs "writeOnly" pBool))
      (optF fs "externalDocs" parseExternalDocumentation))
      (anyF fs "example"))
      (optF fs "deprecated" pBool))
  | _ => .error [⟨[], "value is not a valid dict"⟩]

def schemaBaseFields (x : SchemaBase) : List (String × Json) :=
  optEmit "$ref" Json.str x.ref ++
    (optEmit "title" Json.str x.title ++
    (optEmit "multipleOf" Json.num x.multipleOf ++
    (optEmit "maximum" Json.num x.maximum ++
    (optEmit "exclusiveMaximum" Json.num x.exclusiveMaximum ++
    (optEmit "minimum" Json.num x.minimum ++
    (optEmit "exclusiveMinimum" Json.num x.exclusiveMinimum ++
    (optEmit "maxLength" Json.num x.maxLength ++
    (optEmit "minLength" Json.num x.minLength ++
    (optEmit "pattern" Json.str x.pattern ++
    (optEmit "maxItems" Json.num x.maxItems ++
    (optEmit "minItems" Json.num x.minItems ++
    (optEmit "uniqueItems" Json.bool x.uniqueItems ++
    (optEmit "maxProperties" Json.num x.maxProperties ++
    (optEmit "minProperties" Json.num x.minProperties ++
    (optEmit "required" (listEmit Json.str) x.required ++
    (optEmit "enum" Json.arr x.enum ++
    (optEmit "type" Json.str x.type ++
    (optEmit "allOf" Json.arr x.allOf ++
    (optEmit "oneOf" Json.arr x.oneOf ++
    (optEmit "anyOf" Json.arr x.anyOf ++
    (anyEmit "not" x.not_ ++
    (anyEmit "items" x.items ++
    (optEmit "properties" Json.obj x.properties ++
    (optEmit "additionalProperties" emitAddProps x.additionalProperties ++
    (optEmit "description" Json.str x.description ++
    (optEmit "format" Json.str x.format ++
    (anyEmit "default" x.default ++
    (optEmit "nullable" Json.bool x.nullable ++
    (optEmit "discriminator" serializeDiscriminator x.discriminator ++
    (optEmit "readOnly" Json.bool x.readOnly ++
    (optEmit "writeOnly" Json.bool x.writeOnly ++
    (optEmit "externalDocs" serializeExternalDocumentation x.externalDocs ++
    (anyEmit "example" x.«example» ++
    (optEmit "deprecated" Json.bool x.deprecated))))))))))))))))))))))))))))))))))

/-- Modelled from the spec: serialization of a `SchemaBase`. -/
def serializeSchemaBase (x : SchemaBase) : Json := .obj (schemaBaseFields x)

@[simp] theorem serializeSchemaBase_isNull (x : SchemaBase) :
    (serializeSchemaBase x).isNull = false := rfl

def SchemaBase.wf (x : SchemaBase) : Bool :=
  x.externalDocs.all ExternalDocumentation.wf

theorem parse_serialize_schemaBase {x : SchemaBase} (h : SchemaBase.wf x = true) :
    parseSchemaBase (serializeSchemaBase x) = .ok x := by
  obtain ⟨ref, title, multipleOf, maximum, exclusiveMaximum, minimum, exclusiveMinimum, maxLength, minLength, pattern, maxItems, minItems, uniqueItems, maxProperties, minProperties, required, enum, type, allOf, oneOf, anyOf, not_, items, properties, additionalProperties, description, format, default, nullable, discriminator, readOnly, writeOnly, externalDocs, «example», deprecated⟩ := x
  simp only [SchemaBase.wf, Bool.and_eq_true, optionAll_iff] at h
  have w1 : optF
      (optEmit "externalDocs" serializeExternalDocumentation externalDocs ++
        (anyEmit "example" «example» ++
        (optEmit "deprecated" Json.bool deprecated)))
      "externalDocs" parseExternalDocumentation = .ok externalDocs :=
    optF_roundtrip (by simp [lookupJ_optEmit_ne, lookupJ_optEmit_ne0, lookupJ_reqEmit_ne, lookupJ_reqEmit_ne0, lookupJ_anyEmit_ne, lookupJ_anyEmit_ne0])
      (by intro a _; simp) (fun a ha => parse_serialize_externalDocumentation (h a ha))
  simp [parseSchemaBase,
    serializeSchemaBase,
    schemaBaseFields,
    optF_roundtrip, optF_roundtrip0, reqF_roundtrip, reqF_roundtrip0,
    anyF_roundtrip, anyF_roundtrip0,
    optF_skip_optEmit, optF_skip_reqEmit, optF_skip_anyEmit,
    reqF_skip_optEmit, reqF_skip_reqEmit, reqF_skip_anyEmit,
    anyF_skip_optEmit, anyF_skip_reqEmit, anyF_skip_anyEmit,
    lookupJ_optEmit_ne, lookupJ_optEmit_ne0, lookupJ_reqEmit_ne, lookupJ_reqEmit_ne0, lookupJ_anyEmit_ne, lookupJ_anyEmit_ne0,
    pListWith_roundtrip, pDictWith_roundtrip,
    pListAny, pDictAny, pAddProps_roundtrip, parse_serialize_discriminator, w1]

/-- `class Schema(SchemaBase)` — overrides the recursive fields with typed `SchemaBase` values (one level of typed nesting). -/
structure Schema where
  ref : Option String
  title : Option String
  multipleOf : Option Int
  maximum : Option Int
  exclusiveMaximum : Option Int
  minimum : Option Int
  exclusiveMinimum : Option Int
  maxLength : Option Int
  minLength : Option Int
  pattern : Option String
  maxItems : Option Int
  minItems : Option Int
  uniqueItems : Option Bool
  maxProperties : Option Int
  minProperties : Option Int
  required : Option (List String)
  enum : Option (List Json)
  type : Option String
  allOf : Option (List SchemaBase)
  oneOf : Option (List SchemaBase)
  anyOf : Option (List SchemaBase)
  not_ : Option SchemaBase
  items : Option SchemaBase
  properties : Option (List (String × SchemaBase))
  additionalProperties : Option ((List (String × Json)) ⊕ Bool)
  description : Option String
  format : Option String
  default : Json
  nullable : Option Bool
  discriminator : Option Discriminator
  readOnly : Option Bool
  writeOnly : Option Bool
  externalDocs : Option ExternalDocumentation
  «example» : Json
  deprecated : Option Bool
  deriving Repr

def parseSchema : Json → Vres Schema
  | .obj fs =>
    (vap (vap (vap (vap (vap (vap (vap (vap (vap (vap (vap (vap (vap (vap (vap (vap (vap (vap (vap (vap (vap (vap (vap (vap (vap (vap (vap (vap (vap (vap (vap (vap (vap (vap (vap (.ok Schema.mk)
      (optF fs "$ref" pStr))
      (optF fs "title" pStr))
      (optF fs "multipleOf" pInt))
      (optF fs "maximum" pInt))
      (optF fs "exclusiveMaximum" pInt))
      (optF fs "minimum" pInt))
      (optF fs "exclusiveMinimum" pInt))
      (optF fs "maxLength" pInt))
      (optF fs "minLength" pInt))
      (optF fs "pattern" pStr))
      (optF fs "maxItems" pInt))
      (optF fs "minItems" pInt))
      (optF fs "uniqueItems" pBool))
      (optF fs "maxProperties" pInt))
      (optF fs "minProperties" pInt))
      (optF fs "required" (pListWith pStr)))
      (optF fs "enum" (pListWith pAny)))
      (optF fs "type" pStr))
      (optF fs "allOf" (pListWith parseSchemaBase)))
      (optF fs "oneOf" (pListWith parseSchemaBase)))
      (optF fs "anyOf" (pListWith parseSchemaBase)))
      (optF fs "not" parseSchemaBase))
      (optF fs "items" parseSchemaBase))
      (optF fs "properties" (pDictWith parseSchemaBase)))
      (optF fs "additionalProperties" pAddProps))
      (optF fs "description" pStr))
      (optF fs "format" pStr))
      (anyF fs "default"))
      (optF fs "nullable" pBool))
      (optF fs "discriminator" parseDiscriminator))
      (optF fs "readOnly" pBool))
      (optF fs "writeOnly" pBool))
      (optF fs "externalDocs" parseExternalDocumentation))
      (anyF fs "example"))
      (optF fs "deprecated" pBool))
  | _ => .error [⟨[], "value is not a valid dict"⟩]

def schemaFields (x : Schema) : List (String × Json) :=
  optEmit "$ref" Json.str x.ref ++
    (optEmit "title" Json.str x.title ++
    (optEmit "multipleOf" Json.num x.multipleOf ++
    (optEmit "maximum" Json.num x.maximum ++
    (optEmit "exclusiveMaximum" Json.num x.exclusiveMaximum ++
    (optEmit "minimum" Json.num x.minimum ++
    (optEmit "exclusiveMinimum" Json.num x.exclusiveMinimum ++
    (optEmit "maxLength" Json.num x.maxLength ++
    (optEmit "minLength" Json.num x.minLength ++
    (optEmit "pattern" Json.str x.pattern ++
    (optEmit "maxItems" Json.num x.maxItems ++
    (optEmit "minItems" Json.num x.minItems ++
    (optEmit "uniqueItems" Json.bool x.uniqueItems ++
    (optEmit "maxProperties" Json.num x.maxProperties ++
    (optEmit "minProperties" Json.num x.minProperties ++
    (optEmit "required" (listEmit Json.str) x.required ++
    (optEmit "enum" Json.arr x.enum ++
    (optEmit "type" Json.str x.type ++
    (optEmit "allOf" (listEmit serializeSchemaBase) x.allOf ++
    (optEmit "oneOf" (listEmit serializeSchemaBase) x.oneOf ++
    (optEmit "anyOf" (listEmit serializeSchemaBase) x.anyOf ++
    (optEmit "not" serializeSchemaBase x.not_ ++
    (optEmit "items" serializeSchemaBase x.items ++
    (optEmit "properties" (dictEmit serializeSchemaBase) x.properties ++
    (optEmit "additionalProperties" emitAddProps x.additionalProperties ++
    (optEmit "description" Json.str x.description ++
    (optEmit "format" Json.str x.format ++
    (anyEmit "default" x.default ++
    (optEmit "nullable" Json.bool x.nullable ++
    (optEmit "discriminator" serializeDiscriminator x.discriminator ++
    (optEmit "readOnly" Json.bool x.readOnly ++
    (optEmit "writeOnly" Json.bool x.writeOnly ++
    (optEmit "externalDocs" serializeExternalDocumentation x.externalDocs ++
    (anyEmit "example" x.«example» ++
    (optEmit "deprecated" Json.bool x.deprecated))))))))))))))))))))))))))))))))))

/-- Modelled from the spec: serialization of a `Schema`. -/
def serializeSchema (x : Schema) : Json := .obj (schemaFields x)

@[simp] theorem serializeSchema_isNull (x : Schema) :
    (serializeSchema x).isNull = false := rfl

def Schema.wf (x : Schema) : Bool :=
  x.allOf.all (fun l => l.all SchemaBase.wf) &&
    (x.oneOf.all (fun l => l.all SchemaBase.wf) &&
    (x.anyOf.all (fun l => l.all SchemaBase.wf) &&
    (x.not_.all SchemaBase.wf &&
    (x.items.all SchemaBase.wf &&
    (x.properties.all (fun d => d.all (fun e => SchemaBase.wf e.2)) &&
    (x.externalDocs.all ExternalDocumentation.wf))))))

theorem parse_serialize_schema {x : Schema} (h : Schema.wf x = true) :
    parseSchema (serializeSchema x) = .ok x := by
  obtain ⟨ref, title, multipleOf, maximum, exclusiveMaximum, minimum, exclusiveMinimum, maxLength, minLength, pattern, maxItems, minItems, uniqueItems, maxProperties, minProperties, required, enum, type, allOf, oneOf, anyOf, not_, items, properties, additionalProperties, description, format, default, nullable, discriminator, readOnly, writeOnly, externalDocs, «example», deprecated⟩ := x
  simp only [Schema.wf, Bool.and_eq_true, optionAll_iff] at h
  obtain ⟨hc1, hc2, hc3, hc4, hc5, hc6, hc7⟩ := h
  have w1 : optF
      (optEmit "allOf" (listEmit serializeSchemaBase) allOf ++
        (optEmit "oneOf" (listEmit serializeSchemaBase) oneOf ++
        (optEmit "anyOf" (listEmit serializeSchemaBase) anyOf ++
        (optEmit "not" serializeSchemaBase not_ ++
        (optEmit "items" serializeSchemaBase items ++
        (optEmit "properties" (dictEmit serializeSchemaBase) properties ++
        (optEmit "additionalProperties" emitAddProps additionalProperties ++
        (optEmit "description" Json.str description ++
        (optEmit "format" Json.str format ++
        (anyEmit "default" default ++
        (optEmit "nullable" Json.bool nullable ++
        (optEmit "discriminator" serializeDiscriminator discriminator ++
        (optEmit "readOnly" Json.bool readOnly ++
        (optEmit "writeOnly" Json.bool writeOnly ++
        (optEmit "externalDocs" serializeExternalDocumentation externalDocs ++
        (anyEmit "example" «example» ++
        (optEmit "deprecated" Json.bool deprecated)))))))))))))))))
      "allOf" (pListWith parseSchemaBase) = .ok allOf :=
    optF_roundtrip (by simp [lookupJ_optEmit_ne, lookupJ_optEmit_ne0, lookupJ_reqEmit_ne, lookupJ_reqEmit_ne0, lookupJ_anyEmit_ne, lookupJ_anyEmit_ne0])
      (by intro a _; simp) (fun l hl => pListWith_roundtrip
        (fun a ha => parse_serialize_schemaBase (by simpa using List.all_eq_true.mp (hc1 l hl) a ha)))
  have w2 : optF
      (optEmit "oneOf" (listEmit serializeSchemaBase) oneOf ++
        (optEmit "anyOf" (listEmit serializeSchemaBase) anyOf ++
        (optEmit "not" serializeSchemaBase not_ ++
        (optEmit "items" serializeSchemaBase items ++
        (optEmit "properties" (dictEmit serializeSchemaBase) properties ++
        (optEmit "additionalProperties" emitAddProps additionalProperties ++
        (optEmit "description" Json.str description ++
        (optEmit "format" Json.str format ++
        (anyEmit "default" default ++
        (optEmit "nullable" Json.bool nullable ++
        (optEmit "discriminator" serializeDiscriminator discriminator ++
        (optEmit "readOnly" Json.bool readOnly ++
        (optEmit "writeOnly" Json.bool writeOnly ++
        (optEmit "externalDocs" serializeExternalDocumentation externalDocs ++
        (anyEmit "example" «example» ++
        (optEmit "deprecated" Json.bool deprecated))))))))))))))))
      "oneOf" (pListWith parseSchemaBase) = .ok oneOf :=
    optF_roundtrip (by simp [lookupJ_optEmit_ne, lookupJ_optEmit_ne0, lookupJ_reqEmit_ne, lookupJ_reqEmit_ne0, lookupJ_anyEmit_ne, lookupJ_anyEmit_ne0])
      (by intro a _; simp) (fun l hl => pListWith_roundtrip
        (fun a ha => parse_serialize_schemaBase (by simpa using List.all_eq_true.mp (hc2 l hl) a ha)))
  have w3 : optF
      (optEmit "anyOf" (listEmit serializeSchemaBase) anyOf ++
        (optEmit "not" serializeSchemaBase not_ ++
        (optEmit "items" serializeSchemaBase items ++
        (optEmit "properties" (dictEmit serializeSchemaBase) properties ++
        (optEmit "additionalProperties" emitAddProps additionalProperties ++
        (optEmit "description" Json.str description ++
        (optEmit "format" Json.str format ++
        (anyEmit "default" default ++
        (optEmit "nullable" Json.bool nullable ++
        (optEmit "discriminator" serializeDiscriminator discriminator ++
        (optEmit "readOnly" Json.bool readOnly ++
        (optEmit "writeOnly" Json.bool writeOnly ++
        (optEmit "externalDocs" serializeExternalDocumentation externalDocs ++
        (anyEmit "example" «example» ++
        (optEmit "deprecated" Json.bool deprecated)))))))))))))))
      "anyOf" (pListWith parseSchemaBase) = .ok anyOf :=
    optF_roundtrip (by simp [lookupJ_optEmit_ne, lookupJ_optEmit_ne0, lookupJ_reqEmit_ne, lookupJ_reqEmit_ne0, lookupJ_anyEmit_ne, lookupJ_anyEmit_ne0])
      (by intro a _; simp) (fun l hl => pListWith_roundtrip
        (fun a ha => parse_serialize_schemaBase (by simpa using List.all_eq_true.mp (hc3 l hl) a ha)))
  have w4 : optF
      (optEmit "not" serializeSchemaBase not_ ++
        (optEmit "items" serializeSchemaBase items ++
        (optEmit "properties" (dictEmit serializeSchemaBase) properties ++
        (optEmit "additionalProperties" emitAddProps additionalProperties ++
        (optEmit "description" Json.str description ++
        (optEmit "format" Json.str format ++
        (anyEmit "default" default ++
        (optEmit "nullable" Json.bool nullable ++
        (optEmit "discriminator" serializeDiscriminator discriminator ++
        (optEmit "readOnly" Json.bool readOnly ++
        (optEmit "writeOnly" Json.bool writeOnly ++
        (optEmit "externalDocs" serializeExternalDocumentation externalDocs ++
        (anyEmit "example" «example» ++
        (optEmit "deprecated" Json.bool deprecated))))))))))))))
      "not" parseSchemaBase = .ok not_ :=
    optF_roundtrip (by simp [lookupJ_optEmit_ne, lookupJ_optEmit_ne0, lookupJ_reqEmit_ne, lookupJ_reqEmit_ne0, lookupJ_anyEmit_ne, lookupJ_anyEmit_ne0])
      (by intro a _; simp) (fun a ha => parse_serialize_schemaBase (hc4 a ha))
  have w5 : optF
      (optEmit "items" serializeSchemaBase items ++
        (optEmit "properties" (dictEmit serializeSchemaBase) properties ++
        (optEmit "additionalProperties" emitAddProps additionalProperties ++
        (optEmit "description" Json.str description ++
        (optEmit "format" Json.str format ++
        (anyEmit "default" default ++
        (optEmit "nullable" Json.bool nullable ++
        (optEmit "discriminator" serializeDiscriminator discriminator ++
        (optEmit "readOnly" Json.bool readOnly ++
        (optEmit "writeOnly" Json.bool writeOnly ++
        (optEmit "externalDocs" serializeExternalDocumentation externalDocs ++
        (anyEmit "example" «example» ++
        (optEmit "deprecated" Json.bool deprecated)))))))))))))
      "items" parseSchemaBase = .ok items :=
    optF_roundtrip (by simp [lookupJ_optEmit_ne, lookupJ_optEmit_ne0, lookupJ_reqEmit_ne, lookupJ_reqEmit_ne0, lookupJ_anyEmit_ne, lookupJ_anyEmit_ne0])
      (by intro a _; simp) (fun a ha => parse_serialize_schemaBase (hc5 a ha))
  have w6 : optF
      (optEmit "properties" (dictEmit serializeSchemaBase) properties ++
        (optEmit "additionalProperties" emitAddProps additionalProperties ++
        (optEmit "description" Json.str description ++
        (optEmit "format" Json.str format ++
        (anyEmit "default" default ++
        (optEmit "nullable" Json.bool nullable ++
        (optEmit "discriminator" serializeDiscriminator discriminator ++
        (optEmit "readOnly" Json.bool readOnly ++
        (optEmit "writeOnly" Json.bool writeOnly ++
        (optEmit "externalDocs" serializeExternalDocumentation externalDocs ++
        (anyEmit "example" «example» ++
        (optEmit "deprecated" Json.bool deprecated))))))))))))
      "properties" (pDictWith parseSchemaBase) = .ok properties :=
    optF_roundtrip (by simp [lookupJ_optEmit_ne, lookupJ_optEmit_ne0, lookupJ_reqEmit_ne, lookupJ_reqEmit_ne0, lookupJ_anyEmit_ne, lookupJ_anyEmit_ne0])
      (by intro a _; simp) (fun d hd => pDictWith_roundtrip
        (fun e he => parse_serialize_schemaBase (by simpa using List.all_eq_true.mp (hc6 d hd) e he)))
  have w7 : optF
      (optEmit "externalDocs" serializeExternalDocumentation externalDocs ++
        (anyEmit "example" «example» ++
        (optEmit "deprecated" Json.bool deprecated)))
      "externalDocs" parseExternalDocumentation = .ok externalDocs :=
    optF_roundtrip (by simp [lookupJ_optEmit_ne, lookupJ_optEmit_ne0, lookupJ_reqEmit_ne, lookupJ_reqEmit_ne0, lookupJ_anyEmit_ne, lookupJ_anyEmit_ne0])
      (by intro a _; simp) (fun a ha => parse_serialize_externalDocumentation (hc7 a ha))
  simp [parseSchema,
    serializeSchema,
    schemaFields,
    optF_roundtrip, optF_roundtrip0, reqF_roundtrip, reqF_roundtrip0,
    anyF_roundtrip, anyF_roundtrip0,
    optF_skip_optEmit, optF_skip_reqEmit, optF_skip_anyEmit,
    reqF_skip_optEmit, reqF_skip_reqEmit, reqF_skip_anyEmit,
    anyF_skip_optEmit, anyF_skip_reqEmit, anyF_skip_anyEmit,
    lookupJ_optEmit_ne, lookupJ_optEmit_ne0, lookupJ_reqEmit_ne, lookupJ_reqEmit_ne0, lookupJ_anyEmit_ne, lookupJ_anyEmit_ne0,
    pListWith_roundtrip, pDictWith_roundtrip,
    pListAny, pDictAny, pAddProps_roundtrip, parse_serialize_discriminator, w1, w2, w3, w4, w5, w6, w7]

/-- `class Parameter(BaseModel)` — all fields optional. -/
structure Parameter where
  location : Option String
  description : Option String
  schema : Option Schema
  deriving Repr

def parseParameter : Json → Vres Parameter
  | .obj fs =>
    (vap (vap (vap (.ok Parameter.mk)
      (optF fs "location" pStr))
      (optF fs "description" pStr))
      (optF fs "schema" parseSchema))
  | _ => .error [⟨[], "value is not a valid dict"⟩]

def parameterFields (x : Parameter) : List (String × Json) :=
  optEmit "location" Json.str x.location ++
    (optEmit "description" Json.str x.description ++
    (optEmit "schema" serializeSchema x.schema))

/-- Modelled from the spec: serialization of a `Parameter`. -/
def serializeParameter (x : Parameter) : Json := .obj (parameterFields x)

@[simp] theorem serializeParameter_isNull (x : Parameter) :
    (serializeParameter x).isNull = false := rfl

def Parameter.wf (x : Parameter) : Bool :=
  x.schema.all Schema.wf

theorem parse_serialize_parameter {x : Parameter} (h : Parameter.wf x = true) :
    parseParameter (serializeParameter x) = .ok x := by
  obtain ⟨location, description, schema⟩ := x
  simp only [Parameter.wf, Bool.and_eq_true, optionAll_iff] at h
  have w1 : optF
      (optEmit "schema" serializeSchema schema)
      "schema" parseSchema = .ok schema :=
    optF_roundtrip0 (by intro a _; simp) (fun a ha => parse_serialize_schema (h a ha))
  simp [parseParameter,
    serializeParameter,
    parameterFields,
    optF_roundtrip, optF_roundtrip0, reqF_roundtrip, reqF_roundtrip0,
    anyF_roundtrip, anyF_roundtrip0,
    optF_skip_optEmit, optF_skip_reqEmit, optF_skip_anyEmit,
    reqF_skip_optEmit, reqF_skip_reqEmit, reqF_skip_anyEmit,
    anyF_skip_optEmit, anyF_skip_reqEmit, anyF_skip_anyEmit,
    lookupJ_optEmit_ne, lookupJ_optEmit_ne0, lookupJ_reqEmit_ne, lookupJ_reqEmit_ne0, lookupJ_anyEmit_ne, lookupJ_anyEmit_ne0,
    pListWith_roundtrip, pDictWith_roundtrip,
    w1]

/-- `class CorrelationID(BaseModel)` — location required. -/
structure CorrelationID where
  description : Option String
  location : String
  deriving Repr

def parseCorrelationID : Json → Vres CorrelationID
  | .obj fs =>
    (vap (vap (.ok CorrelationID.mk)
      (optF fs "description" pStr))
      (reqF fs "location" pStr))
  | _ => .error [⟨[], "value is not a valid dict"⟩]

def correlationIDFields (x : CorrelationID) : List (String × Json) :=
  optEmit "description" Json.str x.description ++
    (reqEmit "location" Json.str x.location)

/-- Modelled from the spec: serialization of a `CorrelationID`. -/
def serializeCorrelationID (x : CorrelationID) : Json := .obj (correlationIDFields x)

@[simp] theorem serializeCorrelationID_isNull (x : CorrelationID) :
    (serializeCorrelationID x).isNull = false := rfl

@[simp] theorem parse_serialize_correlationID (x : CorrelationID) :
    parseCorrelationID (serializeCorrelationID x) = .ok x := by
  obtain ⟨description, location⟩ := x
  simp [parseCorrelationID,
    serializeCorrelationID,
    correlationIDFields,
    optF_roundtrip, optF_roundtrip0, reqF_roundtrip, reqF_roundtrip0,
    anyF_roundtrip, anyF_roundtrip0,
    optF_skip_optEmit, optF_skip_reqEmit, optF_skip_anyEmit,
    reqF_skip_optEmit, reqF_skip_reqEmit, reqF_skip_anyEmit,
    anyF_skip_optEmit, anyF_skip_reqEmit, anyF_skip_anyEmit,
    lookupJ_optEmit_ne, lookupJ_optEmit_ne0, lookupJ_reqEmit_ne, lookupJ_reqEmit_ne0, lookupJ_anyEmit_ne, lookupJ_anyEmit_ne0,
    pListWith_roundtrip, pDictWith_roundtrip]



/-- `class Tag(BaseModel)` — an empty placeholder record: no declared
fields; pydantic's default `Extra.ignore` accepts and discards every input
key. -/
structure Tag where
  deriving Repr, DecidableEq

def parseTag : Json → Vres Tag
  | .obj _ => .ok ⟨⟩
  | _ => .error [⟨[], "value is not a valid dict"⟩]

/-- Modelled from the spec: serialization of a `Tag` (no fields, so the
emitted mapping is empty). -/
def serializeTag (_ : Tag) : Json := .obj []

@[simp] theorem serializeTag_isNull (t : Tag) : (serializeTag t).isNull = false := rfl

@[simp] theorem parse_serialize_tag (t : Tag) : parseTag (serializeTag t) = .ok t := rfl

/-- `class Components(BaseModel)` — an empty placeholder record, like
`Tag`. -/
structure Components where
  deriving Repr, DecidableEq

def parseComponents : Json → Vres Components
  | .obj _ => .ok ⟨⟩
  | _ => .error [⟨[], "value is not a valid dict"⟩]

/-- Modelled from the spec: serialization of a `Components`. -/
def serializeComponents (_ : Components) : Json := .obj []

@[simp] theorem serializeComponents_isNull (c : Components) :
    (serializeComponents c).isNull = false := rfl

@[simp] theorem parse_serialize_components (c : Components) :
    parseComponents (serializeComponents c) = .ok c := rfl

/-- Serialization of `Union[Schema, Reference]` values. -/
def emitSchemaRef : Schema ⊕ Reference → Json
  | .inl s => serializeSchema s
  | .inr r => serializeReference r

@[simp] theorem emitSchemaRef_isNull (v : Schema ⊕ Reference) :
    (emitSchemaRef v).isNull = false := by
  cases v <;> simp [emitSchemaRef]

/-- Serialization of `Union[CorrelationID, Reference]` values. -/
def emitCorrRef : CorrelationID ⊕ Reference → Json
  | .inl c => serializeCorrelationID c
  | .inr r => serializeReference r

@[simp] theorem emitCorrRef_isNull (v : CorrelationID ⊕ Reference) :
    (emitCorrRef v).isNull = false := by
  cases v <;> simp [emitCorrRef]

/-- Serialization of `Union[Parameter, Reference]` values. -/
def emitParamRef : Parameter ⊕ Reference → Json
  | .inl p => serializeParameter p
  | .inr r => serializeReference r

@[simp] theorem emitParamRef_isNull (v : Parameter ⊕ Reference) :
    (emitParamRef v).isNull = false := by
  cases v <;> simp [emitParamRef]


/-- `class MessageBase(BaseModel)` — payload is `Any` (pydantic v1 treats an `Any` annotation as optional with default `None`). -/
structure MessageBase where
  headers : Option (Schema ⊕ Reference)
  payload : Json
  correlationId : Option (CorrelationID ⊕ Reference)
  schemaFormat : Option String
  contentType : Option String
  name : Option String
  title : Option String
  summary : Option String
  description : Option String
  tags : Option (List Tag)
  externalDocs : Option ExternalDocumentation
  bindings : Option (List (String × List (String × Json)))
  examples : Option (List (String × Json))
  deriving Repr

def parseMessageBase : Json → Vres MessageBase
  | .obj fs =>
    (vap (vap (vap (vap (vap (vap (vap (vap (vap (vap (vap (vap (vap (.ok MessageBase.mk)
      (optF fs "headers" (pUnion parseSchema parseReference)))
      (anyF fs "payload"))
      (optF fs "correlationId" (pUnion parseCorrelationID parseReference)))
      (optF fs "schemaFormat" pStr))
      (optF fs "contentType" pStr))
      (optF fs "name" pStr))
      (optF fs "title" pStr))
      (optF fs "summary" pStr))
      (optF fs "description" pStr))
      (optF fs "tags" (pListWith parseTag)))
      (optF fs "externalDocs" parseExternalDocumentation))
      (optF fs "bindings" (pDictWith pObj)))
      (optF fs "examples" (pDictWith pAny)))
  | _ => .error [⟨[], "value is not a valid dict"⟩]

def messageBaseFields (x : MessageBase) : List (String × Json) :=
  optEmit "headers" emitSchemaRef x.headers ++
    (anyEmit "payload" x.payload ++
    (optEmit "correlationId" emitCorrRef x.correlationId ++
    (optEmit "schemaFormat" Json.str x.schemaFormat ++
    (optEmit "contentType" Json.str x.contentType ++
    (optEmit "name" Json.str x.name ++
    (optEmit "title" Json.str x.title ++
    (optEmit "summary" Json.str x.summary ++
    (optEmit "description" Json.str x.description ++
    (optEmit "tags" (listEmit serializeTag) x.tags ++
    (optEmit "externalDocs" serializeExternalDocumentation x.externalDocs ++
    (optEmit "bindings" (dictEmit Json.obj) x.bindings ++
    (optEmit "examples" Json.obj x.examples))))))))))))

/-- Modelled from the spec: serialization of a `MessageBase`. -/
def serializeMessageBase (x : MessageBase) : Json := .obj (messageBaseFields x)

@[simp] theorem serializeMessageBase_isNull (x : MessageBase) :
    (serializeMessageBase x).isNull = false := rfl

def MessageBase.wf (x : MessageBase) : Bool :=
  x.headers.all (sumWfL Schema.wf) &&
    (x.externalDocs.all ExternalDocumentation.wf)

theorem parse_serialize_messageBase {x : MessageBase} (h : MessageBase.wf x = true) :
    parseMessageBase (serializeMessageBase x) = .ok x := by
  obtain ⟨headers, payload, correlationId, schemaFormat, contentType, name, title, summary, description, tags, externalDocs, bindings, examples⟩ := x
  simp only [MessageBase.wf, Bool.and_eq_true, optionAll_iff] at h
  obtain ⟨hc1, hc2⟩ := h
  have w1 : optF
      (optEmit "headers" emitSchemaRef headers ++
        (anyEmit "payload" payload ++
        (optEmit "correlationId" emitCorrRef correlationId ++
        (optEmit "schemaFormat" Json.str schemaFormat ++
        (optEmit "contentType" Json.str contentType ++
        (optEmit "name" Json.str name ++
        (optEmit "title" Json.str title ++
        (optEmit "summary" Json.str summary ++
        (optEmit "description" Json.str description ++
        (optEmit "tags" (listEmit serializeTag) tags ++
        (optEmit "externalDocs" serializeExternalDocumentation externalDocs ++
        (optEmit "bindings" (dictEmit Json.obj) bindings ++
        (optEmit "examples" Json.obj examples)))))))))))))
      "headers" (pUnion parseSchema parseReference) = .ok headers :=
    optF_roundtrip (by simp [lookupJ_optEmit_ne, lookupJ_optEmit_ne0, lookupJ_reqEmit_ne, lookupJ_reqEmit_ne0, lookupJ_anyEmit_ne, lookupJ_anyEmit_ne0])
      (by intro a _; simp) (fun a ha => by
      have hw := hc1 a ha
      cases a with
      | inl s => exact pUnion_inl (parse_serialize_schema (by simpa [sumWfL] using hw))
      | inr r => simp [sumWfL] at hw)
  have w2 : optF
      (optEmit "correlationId" emitCorrRef correlationId ++
        (optEmit "schemaFormat" Json.str schemaFormat ++
        (optEmit "contentType" Json.str contentType ++
        (optEmit "name" Json.str name ++
        (optEmit "title" Json.str title ++
        (optEmit "summary" Json.str summary ++
        (optEmit "description" Json.str description ++
        (optEmit "tags" (listEmit serializeTag) tags ++
        (optEmit "externalDocs" serializeExternalDocumentation externalDocs ++
        (optEmit "bindings" (dictEmit Json.obj) bindings ++
        (optEmit "examples" Json.obj examples)))))))))))
      "correlationId" (pUnion parseCorrelationID parseReference) = .ok correlationId :=
    optF_roundtrip (by simp [lookupJ_optEmit_ne, lookupJ_optEmit_ne0, lookupJ_reqEmit_ne, lookupJ_reqEmit_ne0, lookupJ_anyEmit_ne, lookupJ_anyEmit_ne0])
      (by intro a _; simp) (fun a _ => by
      cases a with
      | inl c => exact pUnion_inl (parse_serialize_correlationID c)
      | inr r => exact pUnion_inr rfl (parse_serialize_reference r))
  have w3 : optF
      (optEmit "externalDocs" serializeExternalDocumentation externalDocs ++
        (optEmit "bindings" (dictEmit Json.obj) bindings ++
        (optEmit "examples" Json.obj examples)))
      "externalDocs" parseExternalDocumentation = .ok externalDocs :=
    optF_roundtrip (by simp [lookupJ_optEmit_ne, lookupJ_optEmit_ne0, lookupJ_reqEmit_ne, lookupJ_reqEmit_ne0, lookupJ_anyEmit_ne, lookupJ_anyEmit_ne0])
      (by intro a _; simp) (fun a ha => parse_serialize_externalDocumentation (hc2 a ha))
  simp [parseMessageBase,
    serializeMessageBase,
    messageBaseFields,
    optF_roundtrip, optF_roundtrip0, reqF_roundtrip, reqF_roundtrip0,
    anyF_roundtrip, anyF_roundtrip0,
    optF_skip_optEmit, optF_skip_reqEmit, optF_skip_anyEmit,
    reqF_skip_optEmit, reqF_skip_reqEmit, reqF_skip_anyEmit,
    anyF_skip_optEmit, anyF_skip_reqEmit, anyF_skip_anyEmit,
    lookupJ_optEmit_ne, lookupJ_optEmit_ne0, lookupJ_reqEmit_ne, lookupJ_reqEmit_ne0, lookupJ_anyEmit_ne, lookupJ_anyEmit_ne0,
    pListWith_roundtrip, pDictWith_roundtrip,
    pObj_obj, pDictAny, parse_serialize_tag, w1, w2, w3]

/-- `class Message(MessageBase)` — adds an optional list of traits. -/
structure Message where
  headers : Option (Schema ⊕ Reference)
  payload : Json
  correlationId : Option (CorrelationID ⊕ Reference)
  schemaFormat : Option String
  contentType : Option String
  name : Option String
  title : Option String
  summary : Option String
  description : Option String
  tags : Option (List Tag)
  externalDocs : Option ExternalDocumentation
  bindings : Option (List (String × List (String × Json)))
  examples : Option (List (String × Json))
  traits : Option (List MessageBase)
  deriving Repr

def parseMessage : Json → Vres Message
  | .obj fs =>
    (vap (vap (vap (vap (vap (vap (vap (vap (vap (vap (vap (vap (vap (vap (.ok Message.mk)
      (optF fs "headers" (pUnion parseSchema parseReference)))
      (anyF fs "payload"))
      (optF fs "correlationId" (pUnion parseCorrelationID parseReference)))
      (optF fs "schemaFormat" pStr))
      (optF fs "contentType" pStr))
      (optF fs "name" pStr))
      (optF fs "title" pStr))
      (optF fs "summary" pStr))
      (optF fs "description" pStr))
      (optF fs "tags" (pListWith parseTag)))
      (optF fs "externalDocs" parseExternalDocumentation))
      (optF fs "bindings" (pDictWith pObj)))
      (optF fs "examples" (pDictWith pAny)))
      (optF fs "traits" (pListWith parseMessageBase)))
  | _ => .error [⟨[], "value is not a valid dict"⟩]

def messageFields (x : Message) : List (String × Json) :=
  optEmit "headers" emitSchemaRef x.headers ++
    (anyEmit "payload" x.payload ++
    (optEmit "correlationId" emitCorrRef x.correlationId ++
    (optEmit "schemaFormat" Json.str x.schemaFormat ++
    (optEmit "contentType" Json.str x.contentType ++
    (optEmit "name" Json.str x.name ++
    (optEmit "title" Json.str x.title ++
    (optEmit "summary" Json.str x.summary ++
    (optEmit "description" Json.str x.description ++
    (optEmit "tags" (listEmit serializeTag) x.tags ++
    (optEmit "externalDocs" serializeExternalDocumentation x.externalDocs ++
    (optEmit "bindings" (dictEmit Json.obj) x.bindings ++
    (optEmit "examples" Json.obj x.examples ++
    (optEmit "traits" (listEmit serializeMessageBase) x.traits)))))))))))))

/-- Modelled from the spec: serialization of a `Message`. -/
def serializeMessage (x : Message) : Json := .obj (messageFields x)

@[simp] theorem serializeMessage_isNull (x : Message) :
    (serializeMessage x).isNull = false := rfl

def Message.wf (x : Message) : Bool :=
  x.headers.all (sumWfL Schema.wf) &&
    (x.externalDocs.all ExternalDocumentation.wf &&
    (x.traits.all (fun l => l.all MessageBase.wf)))

theorem parse_serialize_message {x : Message} (h : Message.wf x = true) :
    parseMessage (serializeMessage x) = .ok x := by
  obtain ⟨headers, payload, correlationId, schemaFormat, contentType, name, title, summary, description, tags, externalDocs, bindings, examples, traits⟩ := x
  simp only [Message.wf, Bool.and_eq_true, optionAll_iff] at h
  obtain ⟨hc1, hc2, hc3⟩ := h
  have w1 : optF
      (optEmit "headers" emitSchemaRef headers ++
        (anyEmit "payload" payload ++
        (optEmit "correlationId" emitCorrRef correlationId ++
        (optEmit "schemaFormat" Json.str schemaFormat ++
        (optEmit "contentType" Json.str contentType ++
        (optEmit "name" Json.str name ++
        (optEmit "title" Json.str title ++
        (optEmit "summary" Json.str summary ++
        (optEmit "description" Json.str description ++
        (optEmit "tags" (listEmit serializeTag) tags ++
        (optEmit "externalDocs" serializeExternalDocumentation externalDocs ++
        (optEmit "bindings" (dictEmit Json.obj) bindings ++
        (optEmit "examples" Json.obj examples ++
        (optEmit "traits" (listEmit serializeMessageBase) traits))))))))))))))
      "headers" (pUnion parseSchema parseReference) = .ok headers :=
    optF_roundtrip (by simp [lookupJ_optEmit_ne, lookupJ_optEmit_ne0, lookupJ_reqEmit_ne, lookupJ_reqEmit_ne0, lookupJ_anyEmit_ne, lookupJ_anyEmit_ne0])
      (by intro a _; simp) (fun a ha => by
      have hw := hc1 a ha
      cases a with
      | inl s => exact pUnion_inl (parse_serialize_schema (by simpa [sumWfL] using hw))
      | inr r => simp [sumWfL] at hw)
  have w2 : optF
      (optEmit "correlationId" emitCorrRef correlationId ++
        (optEmit "schemaFormat" Json.str schemaFormat ++
        (optEmit "contentType" Json.str contentType ++
        (optEmit "name" Json.str name ++
        (optEmit "title" Json.str title ++
        (optEmit "summary" Json.str summary ++
        (optEmit "description" Json.str description ++
        (optEmit "tags" (listEmit serializeTag) tags ++
        (optEmit "externalDocs" serializeExternalDocumentation externalDocs ++
        (optEmit "bindings" (dictEmit Json.obj) bindings ++
        (optEmit "examples" Json.obj examples ++
        (optEmit "traits" (listEmit serializeMessageBase) traits))))))))))))
      "correlationId" (pUnion parseCorrelationID parseReference) = .ok correlationId :=
    optF_roundtrip (by simp [lookupJ_optEmit_ne, lookupJ_optEmit_ne0, lookupJ_reqEmit_ne, lookupJ_reqEmit_ne0, lookupJ_anyEmit_ne, lookupJ_anyEmit_ne0])
      (by intro a _; simp) (fun a _ => by
      cases a with
      | inl c => exact pUnion_inl (parse_serialize_correlationID c)
      | inr r => exact pUnion_inr rfl (parse_serialize_reference r))
  have w3 : optF
      (optEmit "externalDocs" serializeExternalDocumentation externalDocs ++
        (optEmit "bindings" (dictEmit Json.obj) bindings ++
        (optEmit "examples" Json.obj examples ++
        (optEmit "traits" (listEmit serializeMessageBase) traits))))
      "externalDocs" parseExternalDocumentation = .ok externalDocs :=
    optF_roundtrip (by simp [lookupJ_optEmit_ne, lookupJ_optEmit_ne0, lookupJ_reqEmit_ne, lookupJ_reqEmit_ne0, lookupJ_anyEmit_ne, lookupJ_anyEmit_ne0])
      (by intro a _; simp) (fun a ha => parse_serialize_externalDocumentation (hc2 a ha))
  have w4 : optF
      (optEmit "traits" (listEmit serializeMessageBase) traits)
      "traits" (pListWith parseMessageBase) = .ok traits :=
    optF_roundtrip0 (by intro a _; simp) (fun l hl => pListWith_roundtrip
        (fun a ha => parse_serialize_messageBase (by simpa using List.all_eq_true.mp (hc3 l hl) a ha)))
  simp [parseMessage,
    serializeMessage,
    messageFields,
    optF_roundtrip, optF_roundtrip0, reqF_roundtrip, reqF_roundtrip0,
    anyF_roundtrip, anyF_roundtrip0,
    optF_skip_optEmit, optF_skip_reqEmit, optF_skip_anyEmit,
    reqF_skip_optEmit, reqF_skip_reqEmit, reqF_skip_anyEmit,
    anyF_skip_optEmit, anyF_skip_reqEmit, anyF_skip_anyEmit,
    lookupJ_optEmit_ne, lookupJ_optEmit_ne0, lookupJ_reqEmit_ne, lookupJ_reqEmit_ne0, lookupJ_anyEmit_ne, lookupJ_anyEmit_ne0,
    pListWith_roundtrip, pDictWith_roundtrip,
    pObj_obj, pDictAny, parse_serialize_tag, w1, w2, w3, w4]

/-- `class OperationTrait(BaseModel)` — note its `tags` field is `Optional[List[Tag]]`, unlike `OperationBase`. -/
structure OperationTrait where
  operationId : Option String
  summary : Option String
  description : Option String
  tags : Option (List Tag)
  externalDocs : Option ExternalDocumentation
  bindings : Option (List (String × List (String × Json)))
  deriving Repr

def parseOperationTrait : Json → Vres OperationTrait
  | .obj fs =>
    (vap (vap (vap (vap (vap (vap (.ok OperationTrait.mk)
      (optF fs "operationId" pStr))
      (optF fs "summary" pStr))
      (optF fs "description" pStr))
      (optF fs "tags" (pListWith parseTag)))
      (optF fs "externalDocs" parseExternalDocumentation))
      (optF fs "bindings" (pDictWith pObj)))
  | _ => .error [⟨[], "value is not a valid dict"⟩]

def operationTraitFields (x : OperationTrait) : List (String × Json) :=
  optEmit "operationId" Json.str x.operationId ++
    (optEmit "summary" Json.str x.summary ++
    (optEmit "description" Json.str x.description ++
    (optEmit "tags" (listEmit serializeTag) x.tags ++
    (optEmit "externalDocs" serializeExternalDocumentation x.externalDocs ++
    (optEmit "bindings" (dictEmit Json.obj) x.bindings)))))

/-- Modelled from the spec: serialization of a `OperationTrait`. -/
def serializeOperationTrait (x : OperationTrait) : Json := .obj (operationTraitFields x)

@[simp] theorem serializeOperationTrait_isNull (x : OperationTrait) :
    (serializeOperationTrait x).isNull = false := rfl

def OperationTrait.wf (x : OperationTrait) : Bool :=
  x.externalDocs.all ExternalDocumentation.wf

theorem parse_serialize_operationTrait {x : OperationTrait} (h : OperationTrait.wf x = true) :
    parseOperationTrait (serializeOperationTrait x) = .ok x := by
  obtain ⟨operationId, summary, description, tags, externalDocs, bindings⟩ := x
  simp only [OperationTrait.wf, Bool.and_eq_true, optionAll_iff] at h
  have w1 : optF
      (optEmit "externalDocs" serializeExternalDocumentation externalDocs ++
        (optEmit "bindings" (dictEmit Json.obj) bindings))
      "externalDocs" parseExternalDocumentation = .ok externalDocs :=
    optF_roundtrip (by simp [lookupJ_optEmit_ne, lookupJ_optEmit_ne0, lookupJ_reqEmit_ne, lookupJ_reqEmit_ne0, lookupJ_anyEmit_ne, lookupJ_anyEmit_ne0])
      (by intro a _; simp) (fun a ha => parse_serialize_externalDocumentation (h a ha))
  simp [parseOperationTrait,
    serializeOperationTrait,
    operationTraitFields,
    optF_roundtrip, optF_roundtrip0, reqF_roundtrip, reqF_roundtrip0,
    anyF_roundtrip, anyF_roundtrip0,
    optF_skip_optEmit, optF_skip_reqEmit, optF_skip_anyEmit,
    reqF_skip_optEmit, reqF_skip_reqEmit, reqF_skip_anyEmit,
    anyF_skip_optEmit, anyF_skip_reqEmit, anyF_skip_anyEmit,
    lookupJ_optEmit_ne, lookupJ_optEmit_ne0, lookupJ_reqEmit_ne, lookupJ_reqEmit_ne0, lookupJ_anyEmit_ne, lookupJ_anyEmit_ne0,
    pListWith_roundtrip, pDictWith_roundtrip,
    pObj_obj, parse_serialize_tag, w1]

/-- `class OperationBase(BaseModel)` — its `tags` are plain strings. -/
structure OperationBase where
  operationId : Option String
  summary : Option String
  description : Option String
  tags : Option (List String)
  externalDocs : Option ExternalDocumentation
  bindings : Option (List (String × List (String × Json)))
  deriving Repr

def parseOperationBase : Json → Vres OperationBase
  | .obj fs =>
    (vap (vap (vap (vap (vap (vap (.ok OperationBase.mk)
      (optF fs "operationId" pStr))
      (optF fs "summary" pStr))
      (optF fs "description" pStr))
      (optF fs "tags" (pListWith pStr)))
      (optF fs "externalDocs" parseExternalDocumentation))
      (optF fs "bindings" (pDictWith pObj)))
  | _ => .error [⟨[], "value is not a valid dict"⟩]

def operationBaseFields (x : OperationBase) : List (String × Json) :=
  optEmit "operationId" Json.str x.operationId ++
    (optEmit "summary" Json.str x.summary ++
    (optEmit "description" Json.str x.description ++
    (optEmit "tags" (listEmit Json.str) x.tags ++
    (optEmit "externalDocs" serializeExternalDocumentation x.externalDocs ++
    (optEmit "bindings" (dictEmit Json.obj) x.bindings)))))

/-- Modelled from the spec: serialization of a `OperationBase`. -/
def serializeOperationBase (x : OperationBase) : Json := .obj (operationBaseFields x)

@[simp] theorem serializeOperationBase_isNull (x : OperationBase) :
    (serializeOperationBase x).isNull = false := rfl

def OperationBase.wf (x : OperationBase) : Bool :=
  x.externalDocs.all ExternalDocumentation.wf

theorem parse_serialize_operationBase {x : OperationBase} (h : OperationBase.wf x = true) :
    parseOperationBase (serializeOperationBase x) = .ok x := by
  obtain ⟨operationId, summary, description, tags, externalDocs, bindings⟩ := x
  simp only [OperationBase.wf, Bool.and_eq_true, optionAll_iff] at h
  have w1 : optF
      (optEmit "externalDocs" serializeExternalDocumentation externalDocs ++
        (optEmit "bindings" (dictEmit Json.obj) bindings))
      "externalDocs" parseExternalDocumentation = .ok externalDocs :=
    optF_roundtrip (by simp [lookupJ_optEmit_ne, lookupJ_optEmit_ne0, lookupJ_reqEmit_ne, lookupJ_reqEmit_ne0, lookupJ_anyEmit_ne, lookupJ_anyEmit_ne0])
      (by intro a _; simp) (fun a ha => parse_serialize_externalDocumentation (h a ha))
  simp [parseOperationBase,
    serializeOperationBase,
    operationBaseFields,
    optF_roundtrip, optF_roundtrip0, reqF_roundtrip, reqF_roundtrip0,
    anyF_roundtrip, anyF_roundtrip0,
    optF_skip_optEmit, optF_skip_reqEmit, optF_skip_anyEmit,
    reqF_skip_optEmit, reqF_skip_reqEmit, reqF_skip_anyEmit,
    anyF_skip_optEmit, anyF_skip_reqEmit, anyF_skip_anyEmit,
    lookupJ_optEmit_ne, lookupJ_optEmit_ne0, lookupJ_reqEmit_ne, lookupJ_reqEmit_ne0, lookupJ_anyEmit_ne, lookupJ_anyEmit_ne0,
    pListWith_roundtrip, pDictWith_roundtrip,
    pObj_obj, w1]

/-- `class Operation(OperationBase)` — adds a single optional `OperationBase` trait overlay and an optional `Message`. -/
structure Operation where
  operationId : Option String
  summary : Option String
  description : Option String
  tags : Option (List String)
  externalDocs : Option ExternalDocumentation
  bindings : Option (List (String × List (String × Json)))
  traits : Option OperationBase
  message : Option Message
  deriving Repr

def parseOperation : Json → Vres Operation
  | .obj fs =>
    (vap (vap (vap (vap (vap (vap (vap (vap (.ok Operation.mk)
      (optF fs "operationId" pStr))
      (optF fs "summary" pStr))
      (optF fs "description" pStr))
      (optF fs "tags" (pListWith pStr)))
      (optF fs "externalDocs" parseExternalDocumentation))
      (optF fs "bindings" (pDictWith pObj)))
      (optF fs "traits" parseOperationBase))
      (optF fs "message" parseMessage))
  | _ => .error [⟨[], "value is not a valid dict"⟩]

def operationFields (x : Operation) : List (String × Json) :=
  optEmit "operationId" Json.str x.operationId ++
    (optEmit "summary" Json.str x.summary ++
    (optEmit "description" Json.str x.description ++
    (optEmit "tags" (listEmit Json.str) x.tags ++
    (optEmit "externalDocs" serializeExternalDocumentation x.externalDocs ++
    (optEmit "bindings" (dictEmit Json.obj) x.bindings ++
    (optEmit "traits" serializeOperationBase x.traits ++
    (optEmit "message" serializeMessage x.message)))))))

/-- Modelled from the spec: serialization of a `Operation`. -/
def serializeOperation (x : Operation) : Json := .obj (operationFields x)

@[simp] theorem serializeOperation_isNull (x : Operation) :
    (serializeOperation x).isNull = false := rfl

def Operation.wf (x : Operation) : Bool :=
  x.externalDocs.all ExternalDocumentation.wf &&
    (x.traits.all OperationBase.wf &&
    (x.message.all Message.wf))

theorem parse_serialize_operation {x : Operation} (h : Operation.wf x = true) :
    parseOperation (serializeOperation x) = .ok x := by
  obtain ⟨operationId, summary, description, tags, externalDocs, bindings, traits, message⟩ := x
  simp only [Operation.wf, Bool.and_eq_true, optionAll_iff] at h
  obtain ⟨hc1, hc2, hc3⟩ := h
  have w1 : optF
      (optEmit "externalDocs" serializeExternalDocumentation externalDocs ++
        (optEmit "bindings" (dictEmit Json.obj) bindings ++
        (optEmit "traits" serializeOperationBase traits ++
        (optEmit "message" serializeMessage message))))
      "externalDocs" parseExternalDocumentation = .ok externalDocs :=
    optF_roundtrip (by simp [lookupJ_optEmit_ne, lookupJ_optEmit_ne0, lookupJ_reqEmit_ne, lookupJ_reqEmit_ne0, lookupJ_anyEmit_ne, lookupJ_anyEmit_ne0])
      (by intro a _; simp) (fun a ha => parse_serialize_externalDocumentation (hc1 a ha))
  have w2 : optF
      (optEmit "traits" serializeOperationBase traits ++
        (optEmit "message" serializeMessage message))
      "traits" parseOperationBase = .ok traits :=
    optF_roundtrip (by simp [lookupJ_optEmit_ne, lookupJ_optEmit_ne0, lookupJ_reqEmit_ne, lookupJ_reqEmit_ne0, lookupJ_anyEmit_ne, lookupJ_anyEmit_ne0])
      (by intro a _; simp) (fun a ha => parse_serialize_operationBase (hc2 a ha))
  have w3 : optF
      (optEmit "message" serializeMessage message)
      "message" parseMessage = .ok message :=
    optF_roundtrip0 (by intro a _; simp) (fun a ha => parse_serialize_message (hc3 a ha))
  simp [parseOperation,
    serializeOperation,
    operationFields,
    optF_roundtrip, optF_roundtrip0, reqF_roundtrip, reqF_roundtrip0,
    anyF_roundtrip, anyF_roundtrip0,
    optF_skip_optEmit, optF_skip_reqEmit, optF_skip_anyEmit,
    reqF_skip_optEmit, reqF_skip_reqEmit, reqF_skip_anyEmit,
    anyF_skip_optEmit, anyF_skip_reqEmit, anyF_skip_anyEmit,
    lookupJ_optEmit_ne, lookupJ_optEmit_ne0, lookupJ_reqEmit_ne, lookupJ_reqEmit_ne0, lookupJ_anyEmit_ne, lookupJ_anyEmit_ne0,
    pListWith_roundtrip, pDictWith_roundtrip,
    pObj_obj, w1, w2, w3]

/-- `class ChannelItem(BaseModel)` — optional `$ref` alternative. -/
structure ChannelItem where
  ref : Option String
  description : Option String
  subscribe : Option Operation
  publish : Option Operation
  parameters : Option (List (String × (Parameter ⊕ Reference)))
  bindings : Option (List (String × List (String × Json)))
  deriving Repr

def parseChannelItem : Json → Vres ChannelItem
  | .obj fs =>
    (vap (vap (vap (vap (vap (vap (.ok ChannelItem.mk)
      (optF fs "$ref" pStr))
      (optF fs "description" pStr))
      (optF fs "subscribe" parseOperation))
      (optF fs "publish" parseOperation))
      (optF fs "parameters" (pDictWith (pUnion parseParameter parseReference))))
      (optF fs "bindings" (pDictWith pObj)))
  | _ => .error [⟨[], "value is not a valid dict"⟩]

def channelItemFields (x : ChannelItem) : List (String × Json) :=
  optEmit "$ref" Json.str x.ref ++
    (optEmit "description" Json.str x.description ++
    (optEmit "subscribe" serializeOperation x.subscribe ++
    (optEmit "publish" serializeOperation x.publish ++
    (optEmit "parameters" (dictEmit emitParamRef) x.parameters ++
    (optEmit "bindings" (dictEmit Json.obj) x.bindings)))))

/-- Modelled from the spec: serialization of a `ChannelItem`. -/
def serializeChannelItem (x : ChannelItem) : Json := .obj (channelItemFields x)

@[simp] theorem serializeChannelItem_isNull (x : ChannelItem) :
    (serializeChannelItem x).isNull = false := rfl

def ChannelItem.wf (x : ChannelItem) : Bool :=
  x.subscribe.all Operation.wf &&
    (x.publish.all Operation.wf &&
    (x.parameters.all (fun d => d.all (fun e => sumWfL Parameter.wf e.2))))

theorem parse_serialize_channelItem {x : ChannelItem} (h : ChannelItem.wf x = true) :
    parseChannelItem (serializeChannelItem x) = .ok x := by
  obtain ⟨ref, description, subscribe, publish, parameters, bindings⟩ := x
  simp only [ChannelItem.wf, Bool.and_eq_true, optionAll_iff] at h
  obtain ⟨hc1, hc2, hc3⟩ := h
  have w1 : optF
      (optEmit "subscribe" serializeOperation subscribe ++
        (optEmit "publish" serializeOperation publish ++
        (optEmit "parameters" (dictEmit emitParamRef) parameters ++
        (optEmit "bindings" (dictEmit Json.obj) bindings))))
      "subscribe" parseOperation = .ok subscribe :=
    optF_roundtrip (by simp [lookupJ_optEmit_ne, lookupJ_optEmit_ne0, lookupJ_reqEmit_ne, lookupJ_reqEmit_ne0, lookupJ_anyEmit_ne, lookupJ_anyEmit_ne0])
      (by intro a _; simp) (fun a ha => parse_serialize_operation (hc1 a ha))
  have w2 : optF
      (optEmit "publish" serializeOperation publish ++
        (optEmit "parameters" (dictEmit emitParamRef) parameters ++
        (optEmit "bindings" (dictEmit Json.obj) bindings)))
      "publish" parseOperation = .ok publish :=
    optF_roundtrip (by simp [lookupJ_optEmit_ne, lookupJ_optEmit_ne0, lookupJ_reqEmit_ne, lookupJ_reqEmit_ne0, lookupJ_anyEmit_ne, lookupJ_anyEmit_ne0])
      (by intro a _; simp) (fun a ha => parse_serialize_operation (hc2 a ha))
  have w3 : optF
      (optEmit "parameters" (dictEmit emitParamRef) parameters ++
        (optEmit "bindings" (dictEmit Json.obj) bindings))
      "parameters" (pDictWith (pUnion parseParameter parseReference)) = .ok parameters :=
    optF_roundtrip (by simp [lookupJ_optEmit_ne, lookupJ_optEmit_ne0, lookupJ_reqEmit_ne, lookupJ_reqEmit_ne0, lookupJ_anyEmit_ne, lookupJ_anyEmit_ne0])
      (by intro a _; simp) (fun d hd => pDictWith_roundtrip (fun e he => by
      have hw := List.all_eq_true.mp (hc3 d hd) e he
      obtain ⟨k, v⟩ := e
      cases v with
      | inl p => exact pUnion_inl (parse_serialize_parameter (by simpa [sumWfL] using hw))
      | inr r => simp [sumWfL] at hw))
  simp [parseChannelItem,
    serializeChannelItem,
    channelItemFields,
    optF_roundtrip, optF_roundtrip0, reqF_roundtrip, reqF_roundtrip0,
    anyF_roundtrip, anyF_roundtrip0,
    optF_skip_optEmit, optF_skip_reqEmit, optF_skip_anyEmit,
    reqF_skip_optEmit, reqF_skip_reqEmit, reqF_skip_anyEmit,
    anyF_skip_optEmit, anyF_skip_reqEmit, anyF_skip_anyEmit,
    lookupJ_optEmit_ne, lookupJ_optEmit_ne0, lookupJ_reqEmit_ne, lookupJ_reqEmit_ne0, lookupJ_anyEmit_ne, lookupJ_anyEmit_ne0,
    pListWith_roundtrip, pDictWith_roundtrip,
    pObj_obj, w1, w2, w3]

/-- `class AsyncAPI(BaseModel)` — the document root: `asyncapi`, `info` and `channels` are required (`id: Optional[str]` has no explicit default, but pydantic v1 gives `Optional` fields the default `None`). -/
structure AsyncAPI where
  asyncapi : String
  id : Option String
  info : Info
  servers : Option (List Server)
  channels : List (String × ChannelItem)
  components : Option Components
  tags : Option (List Tag)
  externalDocs : Option ExternalDocumentation
  deriving Repr

def parseAsyncAPI : Json → Vres AsyncAPI
  | .obj fs =>
    (vap (vap (vap (vap (vap (vap (vap (vap (.ok AsyncAPI.mk)
      (reqF fs "asyncapi" pStr))
      (optF fs "id" pStr))
      (reqF fs "info" parseInfo))
      (optF fs "servers" (pListWith parseServer)))
      (reqF fs "channels" (pDictWith parseChannelItem)))
      (optF fs "components" parseComponents))
      (optF fs "tags" (pListWith parseTag)))
      (optF fs "externalDocs" parseExternalDocumentation))
  | _ => .error [⟨[], "value is not a valid dict"⟩]

def asyncAPIFields (x : AsyncAPI) : List (String × Json) :=
  reqEmit "asyncapi" Json.str x.asyncapi ++
    (optEmit "id" Json.str x.id ++
    (reqEmit "info" serializeInfo x.info ++
    (optEmit "servers" (listEmit serializeServer) x.servers ++
    (reqEmit "channels" (dictEmit serializeChannelItem) x.channels ++
    (optEmit "components" serializeComponents x.components ++
    (optEmit "tags" (listEmit serializeTag) x.tags ++
    (optEmit "externalDocs" serializeExternalDocumentation x.externalDocs)))))))

/-- Modelled from the spec: serialization of a `AsyncAPI`. -/
def serializeAsyncAPI (x : AsyncAPI) : Json := .obj (asyncAPIFields x)

@[simp] theorem serializeAsyncAPI_isNull (x : AsyncAPI) :
    (serializeAsyncAPI x).isNull = false := rfl

def AsyncAPI.wf (x : AsyncAPI) : Bool :=
  Info.wf x.info &&
    (x.channels.all (fun e => ChannelItem.wf e.2) &&
    (x.externalDocs.all ExternalDocumentation.wf))

theorem parse_serialize_asyncAPI {x : AsyncAPI} (h : AsyncAPI.wf x = true) :
    parseAsyncAPI (serializeAsyncAPI x) = .ok x := by
  obtain ⟨asyncapi, id, info, servers, channels, components, tags, externalDocs⟩ := x
  simp only [AsyncAPI.wf, Bool.and_eq_true, optionAll_iff] at h
  obtain ⟨hc1, hc2, hc3⟩ := h
  have w1 : reqF
      (reqEmit "info" serializeInfo info ++
        (optEmit "servers" (listEmit serializeServer) servers ++
        (reqEmit "channels" (dictEmit serializeChannelItem) channels ++
        (optEmit "components" serializeComponents components ++
        (optEmit "tags" (listEmit serializeTag) tags ++
        (optEmit "externalDocs" serializeExternalDocumentation externalDocs))))))
      "info" parseInfo = .ok info :=
    reqF_roundtrip _ (parse_serialize_info hc1)
  have w2 : reqF
      (reqEmit "channels" (dictEmit serializeChannelItem) channels ++
        (optEmit "components" serializeComponents components ++
        (optEmit "tags" (listEmit serializeTag) tags ++
        (optEmit "externalDocs" serializeExternalDocumentation externalDocs))))
      "channels" (pDictWith parseChannelItem) = .ok channels :=
    reqF_roundtrip _ (pDictWith_roundtrip
      (fun e he => parse_serialize_channelItem (by simpa using List.all_eq_true.mp hc2 e he)))
  have w3 : optF
      (optEmit "externalDocs" serializeExternalDocumentation externalDocs)
      "externalDocs" parseExternalDocumentation = .ok externalDocs :=
    optF_roundtrip0 (by intro a _; simp) (fun a ha => parse_serialize_externalDocumentation (hc3 a ha))
  simp [parseAsyncAPI,
    serializeAsyncAPI,
    asyncAPIFields,
    optF_roundtrip, optF_roundtrip0, reqF_roundtrip, reqF_roundtrip0,
    anyF_roundtrip, anyF_roundtrip0,
    optF_skip_optEmit, optF_skip_reqEmit, optF_skip_anyEmit,
    reqF_skip_optEmit, reqF_skip_reqEmit, reqF_skip_anyEmit,
    anyF_skip_optEmit, anyF_skip_reqEmit, anyF_skip_anyEmit,
    lookupJ_optEmit_ne, lookupJ_optEmit_ne0, lookupJ_reqEmit_ne, lookupJ_reqEmit_ne0, lookupJ_anyEmit_ne, lookupJ_anyEmit_ne0,
    pListWith_roundtrip, pDictWith_roundtrip,
    parse_serialize_tag, parse_serialize_components, parse_serialize_server, w1, w2, w3]

/-! The environment-dependent `EmailStr` fallback of `models.py`: when the
`email_validator` package cannot be imported, the module defines its own
`EmailStr(str)` whose `validate` logs a warning and returns `str(v)`
unchanged. -/

mutual

/-- Python `str()` of a decoded value (containers rendered without
Python's repr-quoting of nested strings; only the scalar cases are
exercised by any claim). -/
def pyStr : Json → String
  | .null => "None"
  | .bool b => if b then "True" else "False"
  | .num n => toString n
  | .str s => s
  | .arr xs => "[" ++ pyStrList xs ++ "]"
  | .obj fs => "\x7b" ++ pyStrObj fs ++ "\x7d"

def pyStrList : List Json → String
  | [] => ""
  | [j] => pyStr j
  | j :: rest => pyStr j ++ ", " ++ pyStrList rest

def pyStrObj : List (String × Json) → String
  | [] => ""
  | [(k, j)] => k ++ ": " ++ pyStr j
  | (k, j) :: rest => k ++ ": " ++ pyStr j ++ ", " ++ pyStrObj rest

end

/-- The warning logged by the fallback `EmailStr.validate`, verbatim from
the source. -/
def emailFallbackWarning : String :=
  "email-validator not installed, email fields will be treated as str.\nTo install, run: pip install email-validator"

/-- Fallback `EmailStr.validate`: emits the warning and coerces the value
with `str()`; it never fails. -/
def emailStrFallbackValidate (v : Json) : List String × String :=
  ([emailFallbackWarning], pyStr v)

/-- The `email` field of `Contact` in the environment without
`email_validator`: absent/None skips validation (no warning), a present
value goes through the fallback validator. Returns (warnings, value). -/
def fallbackEmailField (fs : List (String × Json)) : List String × Option String :=
  match lookupJ fs "email" with
  | none => ([], none)
  | some j =>
    if j.isNull then ([], none)
    else ((emailStrFallbackValidate j).1, some (emailStrFallbackValidate j).2)

/-- Parsing a `Contact` in the environment where `email_validator` is not
installed: identical to `parseContact` except that the `email` field
accepts any value, emitting the warning instead of validating.  The second
component is the list of warnings logged during the parse. -/
def parseContactFallback : Json → Vres Contact × List String
  | .obj fs =>
    (vap (vap (vap (.ok Contact.mk)
      (optF fs "name" pStr))
      (optF fs "url" pUrl))
      (.ok (fallbackEmailField fs).2),
     (fallbackEmailField fs).1)
  | _ => (.error [⟨[], "value is not a valid dict"⟩], [])

/-- The accumulated errors of a validation result. -/
def vErrs : Vres α → List FieldError
  | .ok _ => []
  | .error es => es

@[simp] theorem vErrs_ok (a : α) : vErrs (Except.ok a : Vres α) = [] := rfl
@[simp] theorem vErrs_error (es : List FieldError) :
    vErrs (Except.error es : Vres α) = es := rfl

theorem vap_errs_ok_right {x : Vres (α → β)} {a : α} :
    vErrs (vap x (.ok a)) = vErrs x := by
  cases x <;> rfl

theorem optF_error_prefix {fs : List (String × Json)} {k : String}
    {p : Json → Vres α} {es : List FieldError}
    (h : optF fs k p = .error es) : ∃ es', es = errPrefix k es' := by
  unfold optF at h
  split at h
  · cases h
  · rename_i j hj
    split at h
    · cases h
    · cases hp : p j with
      | ok a => rw [hp] at h; cases h
      | error es2 =>
        rw [hp] at h
        cases h
        exact ⟨es2, rfl⟩

theorem errPrefix_mem {e : FieldError} {k : String} {es : List FieldError}
    (h : e ∈ errPrefix k es) : ∃ e0 ∈ es, e = ⟨k :: e0.path, e0.msg⟩ := by
  simp only [errPrefix, List.mem_map] at h
  obtain ⟨e0, he0, rfl⟩ := h
  exact ⟨e0, he0, rfl⟩

/-! Helper lemmas about emitted raw mappings: every emitted field value is
non-null (serialization never writes a null placeholder). -/

theorem noNull_append {l1 l2 : List (String × Json)}
    (h1 : ∀ kj ∈ l1, (kj : String × Json).2.isNull = false)
    (h2 : ∀ kj ∈ l2, (kj : String × Json).2.isNull = false) :
    ∀ kj ∈ l1 ++ l2, (kj : String × Json).2.isNull = false := by
  intro kj hm
  rcases List.mem_append.mp hm with h | h
  · exact h1 _ h
  · exact h2 _ h

theorem noNull_optEmit {f : α → Json} (hf : ∀ a, (f a).isNull = false)
    (k : String) (o : Option α) :
    ∀ kj ∈ optEmit k f o, (kj : String × Json).2.isNull = false := by
  cases o with
  | none => simp [optEmit]
  | some a =>
    intro kj hm
    simp only [optEmit, List.mem_singleton] at hm
    subst hm
    exact hf a

theorem noNull_reqEmit {f : α → Json} (hf : ∀ a, (f a).isNull = false)
    (k : String) (a : α) :
    ∀ kj ∈ reqEmit k f a, (kj : String × Json).2.isNull = false := by
  intro kj hm
  simp only [reqEmit, List.mem_singleton] at hm
  subst hm
  exact hf a

theorem noNull_anyEmit (k : String) (j : Json) :
    ∀ kj ∈ anyEmit k j, (kj : String × Json).2.isNull = false := by
  unfold anyEmit
  split
  · simp
  · intro kj hm
    simp only [List.mem_singleton] at hm
    subst hm
    rename_i hcond
    simpa using hcond

theorem lookupJ_noNull {l : List (String × Json)}
    (hl : ∀ kj ∈ l, (kj : String × Json).2.isNull = false)
    {k : String} {j : Json} (h : lookupJ l k = some j) : j.isNull = false :=
  hl (k, j) (lookupJ_mem h)

/-! Concrete documents and models used by the claim theorems. -/

/-- The `Schema` produced from the empty mapping: every optional field
absent, every `Any` field `None`. -/
def emptySchema : Schema :=
  { ref := none, title := none, multipleOf := none, maximum := none,
    exclusiveMaximum := none, minimum := none, exclusiveMinimum := none,
    maxLength := none, minLength := none, pattern := none, maxItems := none,
    minItems := none, uniqueItems := none, maxProperties := none,
    minProperties := none, required := none, enum := none, type := none,
    allOf := none, oneOf := none, anyOf := none, not_ := none,
    items := none, properties := none, additionalProperties := none,
    description := none, format := none, default := .null, nullable := none,
    discriminator := none, readOnly := none, writeOnly := none,
    externalDocs := none, «example» := .null, deprecated := none }

/-- The `SchemaBase` produced from the empty mapping. -/
def emptySchemaBase : SchemaBase :=
  { ref := none, title := none, multipleOf := none, maximum := none,
    exclusiveMaximum := none, minimum := none, exclusiveMinimum := none,
    maxLength := none, minLength := none, pattern := none, maxItems := none,
    minItems := none, uniqueItems := none, maxProperties := none,
    minProperties := none, required := none, enum := none, type := none,
    allOf := none, oneOf := none, anyOf := none, not_ := .null,
    items := .null, properties := none, additionalProperties := none,
    description := none, format := none, default := .null, nullable := none,
    discriminator := none, readOnly := none, writeOnly := none,
    externalDocs := none, «example» := .null, deprecated := none }

/-- Python attribute access `v.type` applied to a plain decoded value.  A
raw decoded document value is a Python `dict`, `list` or scalar, and none
of these builtin types has a `type` attribute, so the access raises
`AttributeError` for every raw value — modelled as `none`.  Typed
attribute access exists only on model instances (`SchemaBase.type`). -/
def Json.attrType : Json → Option String := fun _ => none

/-! Claim C1 — round-trip of the parse/serialize pair. -/

def c1ExtraDocFields : List (String × Json) :=
  [("asyncapi", .str "2.0.0"),
   ("info", .obj [("title", .str "X"), ("version", .str "1.0")]),
   ("channels", .obj []),
   ("x-extra", .bool true)]

def c1Model : AsyncAPI :=
  { asyncapi := "2.0.0", id := none,
    info := { title := "X", description := none, termsOfService := none,
              contact := none, license := none, version := "1.0" },
    servers := none, channels := [], components := none, tags := none,
    externalDocs := none }

def c1CanonFields : List (String × Json) :=
  [("asyncapi", .str "2.0.0"),
   ("info", .obj [("title", .str "X"), ("version", .str "1.0")]),
   ("channels", .obj [])]

/-- C1, counterexample: `serialize (parse d)` is not structurally equal to
`d` up to key reordering and omission of absent optional fields.  The
valid document `c1ExtraDocFields` carries an unrecognized top-level key
`"x-extra"` with a non-null value; pydantic's default `Extra.ignore`
discards it during parsing, so the re-serialized document lacks a key that
was present in `d` — a difference that is neither a reordering nor the
omission of an absent optional field. -/
theorem c1_counterexample :
    parseAsyncAPI (.obj c1ExtraDocFields) = .ok c1Model ∧
    lookupJ c1ExtraDocFields "x-extra" = some (.bool true) ∧
    serializeAsyncAPI c1Model = .obj c1CanonFields ∧
    lookupJ c1CanonFields "x-extra" = none :=
  ⟨rfl, rfl, rfl, rfl⟩

/-- C1 (amended): the parse/serialize pair round-trips at the model level:
for every well-formed model tree `m` (URL/e-mail-valued fields hold valid
strings and union-typed fields hold their non-shadowed alternative),
`parse (serialize m) = ok m` — hence `serialize ∘ parse` is idempotent on
raw documents, but `serialize (parse d)` may differ from `d` by dropping
unrecognized keys and canonicalizing coerced scalars. -/
theorem c1_roundtrip_amended {m : AsyncAPI} (h : AsyncAPI.wf m = true) :
    parseAsyncAPI (serializeAsyncAPI m) = .ok m :=
  parse_serialize_asyncAPI h

/-- C1 witness: the amended round-trip theorem applied to a concrete
well-formed model. -/
theorem c1_roundtrip_witness :
    parseAsyncAPI (serializeAsyncAPI c1Model) = .ok c1Model :=
  c1_roundtrip_amended rfl

/-! Claim C2 — depth of typed schema nesting. -/

def c2Doc : Json :=
  .obj [("properties", .obj
    [("name", .obj [("type", .str "string")]),
     ("tags", .obj [("type", .str "array"),
                    ("items", .obj [("type", .str "string")])])])]

def c2NameSchema : SchemaBase := { emptySchemaBase with type := some "string" }

def c2TagsSchema : SchemaBase :=
  { emptySchemaBase with
    type := some "array"
    items := .obj [("type", .str "string")] }

def c2Parsed : Schema :=
  { emptySchema with
    properties := some [("name", c2NameSchema), ("tags", c2TagsSchema)] }

/-- C2, counterexample: the parse succeeds, but the sub-schema two levels
deep is NOT a typed `SchemaBase` record.  `Schema.properties` narrows its
values to `SchemaBase`, whose own `items` field is `Optional[Any]`
(`SchemaBase.items : Json` here), so `properties["tags"].items` holds the
raw mapping `{"type": "string"}`; Python attribute access `.type` on that
raw dict fails (`Json.attrType` = `none`), so
`properties["tags"].items.type == "string"` does not hold. -/
theorem c2_counterexample :
    parseSchema c2Doc = .ok c2Parsed ∧
    c2Parsed.properties = some [("name", c2NameSchema), ("tags", c2TagsSchema)] ∧
    c2TagsSchema.items = .obj [("type", .str "string")] ∧
    Json.attrType c2TagsSchema.items = none ∧
    Json.attrType c2TagsSchema.items ≠ some "string" := by
  refine ⟨rfl, rfl, rfl, rfl, ?_⟩
  simp [Json.attrType]

/-- C2 (amended): the example parses such that `properties["tags"]` is a
typed `SchemaBase` with `type = "array"`, whose `items` field holds the
raw (untyped) mapping `{"type": "string"}`: the value `"string"` is
reachable as the mapping lookup `items["type"]`, or by parsing `items`
once more as a `SchemaBase` — typed nesting extends exactly one level
deep. -/
theorem c2_amended :
    parseSchema c2Doc = .ok c2Parsed ∧
    c2TagsSchema.type = some "array" ∧
    c2TagsSchema.items = .obj [("type", .str "string")] ∧
    lookupJ [("type", Json.str "string")] "type" = some (.str "string") ∧
    parseSchemaBase c2TagsSchema.items = .ok c2NameSchema :=
  ⟨rfl, rfl, rfl, rfl, rfl⟩

/-- C3: evaluation of the code at the claim's failing input.  The source
declares `minLength: Optional[int] = Field(None, gte=0)` (and likewise for
the other five bound fields), but `gte` is not a constraint keyword
pydantic v1 recognizes — the correct keyword is `ge` — so the bound lands
in the field's schema-extra mapping and is never enforced: `minLength: -1`
parses successfully instead of failing.  (`minLength: 0` also parses, as
the claim expects.) -/
theorem c3_gte_unenforced :
    parseSchema (.obj [("minLength", .num (-1))]) =
      .ok { emptySchema with minLength := some (-1) } ∧
    parseSchema (.obj [("minLength", .num 0)]) =
      .ok { emptySchema with minLength := some 0 } :=
  ⟨rfl, rfl⟩

/-- C4: every raw mapping whose `"$ref"` key holds
`"#/components/schemas/Foo"` parses as a `Reference` whose `ref` field is
that string, and serializing the `Reference` emits the external aliased
key `"$ref"` and never the internal name `"ref"`. -/
theorem c4_ref_alias (fs : List (String × Json))
    (h : lookupJ fs "$ref" = some (.str "#/components/schemas/Foo")) :
    parseReference (.obj fs) = .ok ⟨"#/components/schemas/Foo"⟩ ∧
    serializeReference ⟨"#/components/schemas/Foo"⟩ =
      .obj [("$ref", .str "#/components/schemas/Foo")] ∧
    lookupJ (referenceFields ⟨"#/components/schemas/Foo"⟩) "ref" = none := by
  refine ⟨?_, rfl, rfl⟩
  simp [parseReference, reqF, h]

/-- C4 witness: the alias theorem at the one-key document. -/
theorem c4_witness :
    parseReference (.obj [("$ref", Json.str "#/components/schemas/Foo")]) =
      .ok ⟨"#/components/schemas/Foo"⟩ ∧
    serializeReference ⟨"#/components/schemas/Foo"⟩ =
      .obj [("$ref", .str "#/components/schemas/Foo")] ∧
    lookupJ (referenceFields ⟨"#/components/schemas/Foo"⟩) "ref" = none :=
  c4_ref_alias [("$ref", Json.str "#/components/schemas/Foo")] rfl

/-- C5: serialization omits every absent optional field (the emitted
mapping binds an optional field's key exactly when the field is present,
shown here as lookup equations on `Contact` and `Server`), never emits a
null placeholder (no emitted key maps to `null`), and emits the
enumeration-typed `protocol` field as its literal string value. -/
theorem c5_serialize_omissions (c : Contact) (s : Server) :
    lookupJ (contactFields c) "name" = c.name.map Json.str ∧
    lookupJ (contactFields c) "url" = c.url.map Json.str ∧
    lookupJ (contactFields c) "email" = c.email.map Json.str ∧
    (∀ k j, lookupJ (contactFields c) k = some j → j.isNull = false) ∧
    lookupJ (serverFields s) "description" = s.description.map Json.str ∧
    lookupJ (serverFields s) "protocol" = some (.str s.protocol.value) ∧
    (∀ k j, lookupJ (serverFields s) k = some j → j.isNull = false) := by
  have hcnn : ∀ kj ∈ contactFields c, (kj : String × Json).2.isNull = false := by
    unfold contactFields
    refine noNull_append (noNull_optEmit ?_ _ _)
      (noNull_append (noNull_optEmit ?_ _ _)
        (noNull_optEmit ?_ _ _)) <;> exact fun a => rfl
  have hsnn : ∀ kj ∈ serverFields s, (kj : String × Json).2.isNull = false := by
    unfold serverFields
    refine noNull_append (noNull_reqEmit ?_ _ _)
      (noNull_append (noNull_optEmit ?_ _ _)
        (noNull_append (noNull_optEmit ?_ _ _)
          (noNull_append (noNull_reqEmit ?_ _ _)
            (noNull_append (noNull_reqEmit ?_ _ _)
              (noNull_append (noNull_optEmit ?_ _ _)
                (noNull_optEmit ?_ _ _)))))) <;> exact fun a => rfl
  refine ⟨?_, ?_, ?_, fun k j h => lookupJ_noNull hcnn h, ?_, ?_,
    fun k j h => lookupJ_noNull hsnn h⟩
  · simp [contactFields, lookupJ_optEmit_self, lookupJ_optEmit_self0,
      lookupJ_optEmit_ne, lookupJ_optEmit_ne0]
  · simp [contactFields, lookupJ_optEmit_self, lookupJ_optEmit_self0,
      lookupJ_optEmit_ne, lookupJ_optEmit_ne0]
  · simp [contactFields, lookupJ_optEmit_self, lookupJ_optEmit_self0,
      lookupJ_optEmit_ne, lookupJ_optEmit_ne0]
  · simp [serverFields, lookupJ_optEmit_self, lookupJ_optEmit_self0,
      lookupJ_optEmit_ne, lookupJ_optEmit_ne0, lookupJ_reqEmit_ne,
      lookupJ_reqEmit_ne0, lookupJ_reqEmit_self, lookupJ_reqEmit_self0]
  · simp [serverFields, lookupJ_optEmit_self, lookupJ_optEmit_self0,
      lookupJ_optEmit_ne, lookupJ_optEmit_ne0, lookupJ_reqEmit_ne,
      lookupJ_reqEmit_ne0, lookupJ_reqEmit_self, lookupJ_reqEmit_self0]

def c5Contact : Contact := ⟨none, none, some "a@b.c"⟩

def c5Server : Server := ⟨"amqp://broker", none, none, .amqp, "0.9.1", none, none⟩

/-- C5 witness: the serialization theorem at concrete entities — the
absent `name` is omitted, `protocol` is the literal `"amqp"`, and the
emitted `email` value is non-null. -/
theorem c5_witness :
    lookupJ (contactFields c5Contact) "name" = Option.map Json.str none ∧
    lookupJ (serverFields c5Server) "protocol" =
      some (.str ServerProtocol.amqp.value) ∧
    (Json.str "a@b.c").isNull = false := by
  obtain ⟨h1, -, -, h4, -, h6, -⟩ := c5_serialize_omissions c5Contact c5Server
  exact ⟨h1, h6, h4 "email" (Json.str "a@b.c") rfl⟩

/-! Claim C6 — closed protocol enumeration. -/

def c6AmqpDoc : List (String × Json) :=
  [("url", .str "amqp://example.org"), ("protocol", .str "amqp"),
   ("protocolVersion", .str "0.9.1")]

def c6PigeonDoc : List (String × Json) :=
  [("url", .str "amqp://example.org"), ("protocol", .str "carrier-pigeon"),
   ("protocolVersion", .str "0.9.1")]

def c6Server : Server :=
  ⟨"amqp://example.org", none, none, .amqp, "0.9.1", none, none⟩

/-- C6: a `Server` parses only if its raw `protocol` string is one of the
thirteen literal values of the closed enumeration; `protocol: "amqp"`
parses, and `protocol: "carrier-pigeon"` fails with a validation error
naming the `protocol` field. -/
theorem c6_protocol_closure :
    (∀ (fs : List (String × Json)) (m : Server) (p : String),
        parseServer (.obj fs) = .ok m →
        lookupJ fs "protocol" = some (.str p) →
        p ∈ protocolTable.map Prod.fst) ∧
    parseServer (.obj c6AmqpDoc) = .ok c6Server ∧
    parseServer (.obj c6PigeonDoc) =
      .error [⟨["protocol"], "value is not a valid enumeration member"⟩] := by
  refine ⟨?_, rfl, rfl⟩
  intro fs m p hok hlook
  have hisok : (parseServer (.obj fs)).isOk = true := by rw [hok]; rfl
  simp only [parseServer, vap_isOk, Bool.and_eq_true] at hisok
  obtain ⟨⟨⟨⟨-, hprot⟩, -⟩, -⟩, -⟩ := hisok
  unfold reqF at hprot
  simp only [hlook] at hprot
  cases hpp : protocolOfString p with
  | none => simp [pProtocol, hpp, Except.isOk, Except.toBool] at hprot
  | some v => exact protocolOfString_mem hpp

/-- C6 witness: the closure theorem applied to the concrete `amqp`
document. -/
theorem c6_witness : "amqp" ∈ protocolTable.map Prod.fst :=
  c6_protocol_closure.1 c6AmqpDoc c6Server "amqp" rfl rfl

/-! Claim C7 — mandatory `info`. -/

def c7Doc : Json :=
  .obj [("asyncapi", .str "2.0.0"),
        ("info", .obj [("title", .str "X"), ("version", .str "1.0")]),
        ("channels", .obj [])]

def c7Model : AsyncAPI :=
  { asyncapi := "2.0.0", id := none,
    info := { title := "X", description := none, termsOfService := none,
              contact := none, license := none, version := "1.0" },
    servers := none, channels := [], components := none, tags := none,
    externalDocs := none }

/-- C7: every raw `AsyncAPI` mapping without an `info` key fails to parse;
the document extended with `info: {title: "X", version: "1.0"}` and the
empty `channels: {}` parses successfully and round-trips through
serialize. -/
theorem c7_mandatory_info :
    (∀ fs : List (String × Json), lookupJ fs "info" = none →
      (parseAsyncAPI (.obj fs)).isOk = false) ∧
    parseAsyncAPI c7Doc = .ok c7Model ∧
    parseAsyncAPI (serializeAsyncAPI c7Model) = .ok c7Model := by
  refine ⟨?_, rfl, rfl⟩
  intro fs h
  have hinfo : reqF fs "info" parseInfo = .error [⟨["info"], "field required"⟩] := by
    unfold reqF
    rw [h]
  simp only [parseAsyncAPI, vap_isOk, hinfo]
  simp [Except.isOk, Except.toBool]

/-- C7 witness: the mandatory-field theorem at the empty document. -/
theorem c7_witness : (parseAsyncAPI (.obj [])).isOk = false :=
  c7_mandatory_info.1 [] rfl

/-- C9: in the environment without the `email_validator` package, the
fallback `EmailStr` accepts any string: a `Contact` whose `email` holds an
arbitrary string parses successfully with that string as the field value,
the source's warning is logged instead of a validation failure, and no
parse of a `Contact` ever reports an error on the `email` field in that
environment. -/
theorem c9_email_fallback :
    (∀ s : String,
      parseContactFallback (.obj [("email", .str s)]) =
        (.ok ⟨none, none, some s⟩, [emailFallbackWarning])) ∧
    (∀ fs : List (String × Json),
      ∀ e ∈ vErrs (parseContactFallback (.obj fs)).1,
        e.path.head? ≠ some "email") := by
  constructor
  · intro s
    rfl
  · intro fs e he
    have heq : (parseContactFallback (.obj fs)).1 =
        vap (vap (vap (.ok Contact.mk) (optF fs "name" pStr))
          (optF fs "url" pUrl)) (.ok (fallbackEmailField fs).2) := rfl
    rw [heq, vap_errs_ok_right] at he
    cases hN : optF fs "name" pStr with
    | ok a =>
      cases hU : optF fs "url" pUrl with
      | ok b =>
        rw [hN, hU] at he
        simp [vap] at he
      | error es =>
        rw [hN, hU] at he
        simp only [vap, vErrs_error] at he
        obtain ⟨es', rfl⟩ := optF_error_prefix hU
        obtain ⟨e0, -, rfl⟩ := errPrefix_mem he
        simp
    | error es1 =>
      cases hU : optF fs "url" pUrl with
      | ok b =>
        rw [hN, hU] at he
        simp only [vap, vErrs_error] at he
        obtain ⟨es', rfl⟩ := optF_error_prefix hN
        obtain ⟨e0, -, rfl⟩ := errPrefix_mem he
        simp
      | error es2 =>
        rw [hN, hU] at he
        simp only [vap, vErrs_error, List.mem_append] at he
        obtain ⟨es1', rfl⟩ := optF_error_prefix hN
        obtain ⟨es2', rfl⟩ := optF_error_prefix hU
        rcases he with he | he <;>
        · obtain ⟨e0, -, rfl⟩ := errPrefix_mem he
          simp

/-- C9 witness: the fallback theorem applied to a document whose `name`
field (not `email`) is invalid. -/
theorem c9_witness :
    (FieldError.mk ["name"] "str type expected").path.head? ≠ some "email" :=
  c9_email_fallback.2 [("name", .arr [])]
    ⟨["name"], "str type expected"⟩ (by decide)

/-- C10: `Tag` and `Components` declare no fields, so parsing any raw
mapping — whatever extra keys it carries — succeeds with the empty record
(the keys are discarded, not preserved), and serialization emits the empty
mapping. -/
theorem c10_placeholder_records (fs : List (String × Json)) :
    parseTag (.obj fs) = .ok ⟨⟩ ∧
    serializeTag ⟨⟩ = .obj [] ∧
    parseComponents (.obj fs) = .ok ⟨⟩ ∧
    serializeComponents ⟨⟩ = .obj [] :=
  ⟨rfl, rfl, rfl, rfl⟩

end FastMQ
